import Mathlib

/-!
Verification of the learning-energy-profile scoring engine.

A shallow embedding of `src/lernprofil/auswertung.py` (version 0.2.1):
the static item taxonomy, input validation, reverse coding, dimension
aggregation, the chronotype and avoidance indices, response-quality
detection and profile assembly.

Modelling conventions:
* Python `Dict[str, int]` rating sets become association lists
  `List (String × Int)` in insertion order (a Python dict preserves
  insertion order and has no duplicate keys, so the lists we quantify
  over carry a `Nodup` hypothesis on their keys where it matters).
* Python `float` arithmetic is idealised as exact rational arithmetic
  (`ℚ`); `round(x, d)` becomes round-half-to-even on `ℚ`, matching the
  semantics of Python's `round` on exactly representable values.  No
  branch of the engine compares against a threshold that an input of
  integer ratings can hit exactly, so the idealisation is faithful.
* Python exceptions become the `Except ScoringError` monad; each raise
  site of the source maps to one constructor of `ScoringError`.
* German result strings of the source are kept verbatim ("niedrig",
  "mittel", "hoch" are the spec's "low", "mid", "high"; the chronotype
  interpretations "Deutlicher Morgentyp" … correspond to the spec's
  "strong morning type" …).
-/

namespace Lernprofil

/-- Dimension labels, mirroring `DIMENSION_LABELS` (insertion order kept). -/
def DIMENSION_LABELS : List (String × String) := [
  ("attention", "Aufmerksamkeitsarchitektur"),
  ("sensory", "Sensorische Verarbeitung"),
  ("social", "Soziale Energetik"),
  ("executive", "Exekutive Funktionen & Strukturbedürfnis"),
  ("motivation", "Motivationsarchitektur"),
  ("regulation", "Autonome Regulation / Stress & Vigilanz")]

/-- Mirrors the frozen dataclass `ItemDefinition` of the source. -/
structure ItemDefinition where
  code : String
  dimension_code : String
  include_in_main_scale : Bool
  reverse_scored : Bool
  facet : String
deriving DecidableEq

/-- Mirrors the `_i` helper used to build `ITEM_DEFINITIONS`. -/
def mkItem (code dim facet : String) (inMain rev : Bool) : ItemDefinition :=
  { code := code, dimension_code := dim, facet := facet,
    include_in_main_scale := inMain, reverse_scored := rev }

/-- The 88-item registry `ITEM_DEFINITIONS`, in source (= dict insertion) order. -/
def ITEM_DEFINITIONS : List (String × ItemDefinition) := [
  ("A1", mkItem "A1" "attention" "Fokusdauer" true false),
  ("A2", mkItem "A2" "attention" "Distraktibilität" true true),
  ("A3", mkItem "A3" "attention" "Wiedereinstieg" true false),
  ("A4", mkItem "A4" "attention" "Arbeitsstil_Sequenziell" true false),
  ("A5", mkItem "A5" "attention" "Task_Switching_Energie" true true),
  ("A6", mkItem "A6" "attention" "Pausenplanung" true false),
  ("A7", mkItem "A7" "attention" "Flow_Neigung" true false),
  ("A8", mkItem "A8" "attention" "Chronotyp_Morgen" false false),
  ("A9", mkItem "A9" "attention" "Chronotyp_Abend" false false),
  ("A10", mkItem "A10" "attention" "Mikropausenbedarf" true true),
  ("A11", mkItem "A11" "attention" "Selbstmonitoring_Konzentration" true false),
  ("A12", mkItem "A12" "attention" "Fokus_in_Stresssituationen" true false),
  ("A13", mkItem "A13" "attention" "Chronotyp_Schlafzeit_Wochentag" false false),
  ("A14", mkItem "A14" "attention" "Chronotyp_Aufwachzeit_Wochentag" false false),
  ("A15", mkItem "A15" "attention" "Chronotyp_Leistungshoch_vormittag" false false),
  ("A16", mkItem "A16" "attention" "Chronotyp_Leistungshoch_abend" false false),
  ("S1", mkItem "S1" "sensory" "Lärmempfindlichkeit" true false),
  ("S2", mkItem "S2" "sensory" "Lichtempfindlichkeit" true false),
  ("S3", mkItem "S3" "sensory" "Detailwahrnehmung" true false),
  ("S4", mkItem "S4" "sensory" "Ordnung_Umgebung" true false),
  ("S5", mkItem "S5" "sensory" "Erholung_nach_Reiz" true false),
  ("S6", mkItem "S6" "sensory" "Sensation_Seeking" true true),
  ("S7", mkItem "S7" "sensory" "Musik_Positive_Wirkung" true true),
  ("S8", mkItem "S8" "sensory" "Musik_Ablenkung" true false),
  ("S9", mkItem "S9" "sensory" "Coping_Strategien_Reize" true false),
  ("S10", mkItem "S10" "sensory" "Neue_Reize_Positive_Wirkung" true true),
  ("S11", mkItem "S11" "sensory" "Multisensory_Ermüdung" true false),
  ("S12", mkItem "S12" "sensory" "Umgebungsgestaltung_aktiv" true false),
  ("S13", mkItem "S13" "sensory" "Multisensorische_Lernpräferenz" true false),
  ("SO1", mkItem "SO1" "social" "Soziale_Aufladung" true false),
  ("SO2", mkItem "SO2" "social" "Alleinlernen_Präferenz" true true),
  ("SO3", mkItem "SO3" "social" "Gruppenarbeit_Energieminus" true true),
  ("SO4", mkItem "SO4" "social" "Diskussion_Nutzen" true false),
  ("SO5", mkItem "SO5" "social" "Erholung_Alleinsein" true true),
  ("SO6", mkItem "SO6" "social" "Kleine_vertraute_Gruppen" true false),
  ("SO7", mkItem "SO7" "social" "Zurückhaltung_große_Gruppen" true true),
  ("SO8", mkItem "SO8" "social" "Live_Sitzungen_Motivation" true false),
  ("SO9", mkItem "SO9" "social" "Asynchron_Präferenz" true true),
  ("SO10", mkItem "SO10" "social" "Erklären_als_Energiequelle" true false),
  ("SO11", mkItem "SO11" "social" "Soziale_Planung" true false),
  ("SO12", mkItem "SO12" "social" "Soziale_Unterstützung_Nutzen" true false),
  ("SO13", mkItem "SO13" "social" "Isolation_bei_Überforderung" true true),
  ("E1", mkItem "E1" "executive" "Planung_Teilschritte" true false),
  ("E2", mkItem "E2" "executive" "Strukturbedarf_Start" true true),
  ("E3", mkItem "E3" "executive" "Überblick_bei_Vielzahl_Aufgaben" true true),
  ("E4", mkItem "E4" "executive" "Nutzung_Organisationstools" true false),
  ("E5", mkItem "E5" "executive" "Vorliebe_vorgegebene_Struktur" true false),
  ("E6", mkItem "E6" "executive" "Flexible_Nutzung_von_Plänen" true false),
  ("E7", mkItem "E7" "executive" "Spontane_Improvisation" true true),
  ("E8", mkItem "E8" "executive" "Durchhaltevermögen" true false),
  ("E9", mkItem "E9" "executive" "Re-Organisation_bei_Unterbrechungen" true false),
  ("E10", mkItem "E10" "executive" "Kriterienbedarf_Qualität" true false),
  ("E11", mkItem "E11" "executive" "Detailverlorenheit" true true),
  ("E12", mkItem "E12" "executive" "Deadline_Koordination" true false),
  ("E13", mkItem "E13" "executive" "Arbeitsgedächtnis_Multitasking" true true),
  ("E14", mkItem "E14" "executive" "Instruktionskomplexität" true true),
  ("E15", mkItem "E15" "executive" "Lernprozess_Monitoring" true false),
  ("E16", mkItem "E16" "executive" "Schwierigkeitseinschätzung" true false),
  ("M1", mkItem "M1" "motivation" "Intrinsische_Motivation" true false),
  ("M2", mkItem "M2" "motivation" "Vermeidungsorientierung" false false),
  ("M3", mkItem "M3" "motivation" "Zielorientierung" true false),
  ("M4", mkItem "M4" "motivation" "Fortschrittsanzeige" true false),
  ("M5", mkItem "M5" "motivation" "Feedbackbedarf" true false),
  ("M6", mkItem "M6" "motivation" "Feedbackdetailgrad" true false),
  ("M7", mkItem "M7" "motivation" "Feedbacktonalität_Positive" true false),
  ("M8", mkItem "M8" "motivation" "Feedbacktonalität_Kritisch" true false),
  ("M9", mkItem "M9" "motivation" "Prokrastination" false false),
  ("M10", mkItem "M10" "motivation" "Interesse_Flow" true false),
  ("M11", mkItem "M11" "motivation" "Extrinsische_Belohnung" true false),
  ("M12", mkItem "M12" "motivation" "Persistenz_ohne_Feedback" true false),
  ("M13", mkItem "M13" "motivation" "Intrinsische_Motivation_reversed" true true),
  ("M14", mkItem "M14" "motivation" "Feedbackabhängigkeit_reversed" true true),
  ("M15", mkItem "M15" "motivation" "Zielorientierung_reversed" true true),
  ("M16", mkItem "M16" "motivation" "Extrinsische_Abhängigkeit" true true),
  ("M17", mkItem "M17" "motivation" "Wenn_Dann_Planung" true false),
  ("M18", mkItem "M18" "motivation" "Commitment_Strategien" true false),
  ("R1", mkItem "R1" "regulation" "Subjektives_Stressniveau" true true),
  ("R2", mkItem "R2" "regulation" "Abschalten_Abends" true true),
  ("R3", mkItem "R3" "regulation" "Erschöpfung_nach_Lernen" true true),
  ("R4", mkItem "R4" "regulation" "Stress_durch_Unvorhergesehenes" true true),
  ("R5", mkItem "R5" "regulation" "Wahrnehmung_körperlicher_Stresszeichen" true false),
  ("R6", mkItem "R6" "regulation" "Kurzpausen_Regulation" true false),
  ("R7", mkItem "R7" "regulation" "Abendroutinen_Regeneration" true false),
  ("R8", mkItem "R8" "regulation" "Druck_als_Leistungsfaktor" true false),
  ("R9", mkItem "R9" "regulation" "Schlaf_in_Stressphasen" true true),
  ("R10", mkItem "R10" "regulation" "Belastungsausgleich" true false),
  ("R11", mkItem "R11" "regulation" "Prioritätensetzung_in_Stress" true false),
  ("R12", mkItem "R12" "regulation" "Belastungsgrenze_Wahrnehmung" true false)]

def LIKERT_MIN : Int := 1
def LIKERT_MAX : Int := 5

def VERSION : String := "0.2.1"

/-- Mirrors `MAIN_ITEMS_DEFINED = [i for i in ITEM_DEFINITIONS.values() if i.include_in_main_scale]`. -/
def MAIN_ITEMS_DEFINED : List ItemDefinition :=
  (ITEM_DEFINITIONS.map Prod.snd).filter (fun i => i.include_in_main_scale)

/-- Mirrors `INDEX_ITEMS_DEFINED = [i for i in ITEM_DEFINITIONS.values() if not i.include_in_main_scale]`. -/
def INDEX_ITEMS_DEFINED : List ItemDefinition :=
  (ITEM_DEFINITIONS.map Prod.snd).filter (fun i => !i.include_in_main_scale)

/-- The conjunction of the four module-level `assert` statements run at import
time (source lines 302–305); a `false` would abort startup. -/
def taxonomy_selfcheck : Bool :=
  ITEM_DEFINITIONS.length == 88 &&
  MAIN_ITEMS_DEFINED.length == 80 &&
  INDEX_ITEMS_DEFINED.length == 8 &&
  (MAIN_ITEMS_DEFINED.countP (fun i => i.reverse_scored)) == 27

/-- The item codes of the taxonomy (`set(ITEM_DEFINITIONS)` as an ordered list). -/
def taxonomyCodes : List String := ITEM_DEFINITIONS.map Prod.fst

/-- Dict lookup `ITEM_DEFINITIONS[code]` (as an `Option`). -/
def lookupItem (code : String) : Option ItemDefinition :=
  List.lookup code ITEM_DEFINITIONS

/-- A Python value submitted as a rating: an actual `int`, or anything else
(`nonInt` carries the `type(...).__name__` style description only). -/
inductive PyValue where
  | vint (n : Int)
  | nonInt (descr : String)
deriving DecidableEq

/-- One constructor per raise site of the engine (spec §7's error taxonomy):
`incompleteInput` / `unknownItemsPresent` / `typeMismatch` / `outOfRange`
are the validator's `ValueError`/`TypeError`s, `scoreOutOfRange` is
`classify_score`'s `ValueError`, `emptyDimension` the aggregation
`RuntimeError`, `missingChronotypeItem` the chronotype `ValueError` and
`internalChronotypeFault` its `RuntimeError` re-wrap, `keyError` a raw
dict `KeyError` on an unknown code. -/
inductive ScoringError where
  | incompleteInput (missing : List String)
  | unknownItemsPresent (extra : List String)
  | typeMismatch (context : String)
  | outOfRange (context : String) (value : Int)
  | scoreOutOfRange (score : ℚ)
  | emptyDimension (dim : String)
  | missingChronotypeItem (code : String)
  | internalChronotypeFault (code : String)
  | keyError (code : String)
deriving DecidableEq

/-- Round-half-to-even on `ℚ`, the semantics of Python's `round` wherever the
argument is exactly representable. -/
def pyRound (q : ℚ) : ℤ :=
  let f := ⌊q⌋
  let r := q - (f : ℚ)
  if r < 1/2 then f
  else if 1/2 < r then f + 1
  else if f % 2 = 0 then f else f + 1

/-- Python's `round(q, d)`. -/
def roundTo (d : ℕ) (q : ℚ) : ℚ := (pyRound (q * 10 ^ d) : ℚ) / 10 ^ d

/-- Ascending (lexicographic, by code point) sort: Python's `sorted` on strings. -/
def sortedStrings (l : List String) : List String :=
  List.insertionSort (· ≤ ·) l

/-- Embeds `reverse_likert` (source lines 312–321): type check, range check, then
`LIKERT_MIN + LIKERT_MAX - value`. -/
def reverse_likert (value : PyValue) : Except ScoringError Int :=
  match value with
  | .nonInt descr => .error (.typeMismatch descr)
  | .vint v =>
    if LIKERT_MIN ≤ v ∧ v ≤ LIKERT_MAX then .ok (LIKERT_MIN + LIKERT_MAX - v)
    else .error (.outOfRange "reverse_likert" v)

/-- Embeds `classify_score` (source lines 324–336).  The source's German buckets:
"niedrig" = low, "mittel" = mid, "hoch" = high. -/
def classify_score (score : ℚ) : Except ScoringError String :=
  if 0 ≤ score ∧ score ≤ 100 then
    if score < 40 then .ok "niedrig"
    else if score < 75 then .ok "mittel"
    else .ok "hoch"
  else .error (.scoreOutOfRange score)

def QUALITY_WARN_STRAIGHT : String := "Nur 1-2 verschiedene Antworten verwendet"
def QUALITY_WARN_LOW_VAR : String := "Sehr geringe Antwortvariation"

/-- The result dict of `check_response_quality`.  NOTE: the source's dict
literal (lines 362–368) unconditionally carries all five keys listed in
`response_quality_keys`; `warnings := none` models the Python value `None`
(JSON `null`) stored under the key `"warnings"`, not an absent key. -/
structure ResponseQuality where
  num_unique_responses : Nat
  response_variance : ℚ
  mean_response : ℚ
  quality_flag : String
  warnings : Option (List String)
deriving DecidableEq

/-- The keys of the dict literal returned by `check_response_quality`
(source lines 362–368); the literal always contains all five, in this
order — in particular `"warnings"` is present even when its value is `None`. -/
def response_quality_keys : List String :=
  ["num_unique_responses", "response_variance", "mean_response",
   "quality_flag", "warnings"]

/-- Embeds `check_response_quality` (source lines 339–368): distinct-value count,
population variance, mean, warning list (straight-lining first, low
variation second) and the derived flag. -/
def check_response_quality (ratings : List (String × Int)) : ResponseQuality :=
  let values := ratings.map Prod.snd
  let unique_values := values.dedup.length
  let mean_val : ℚ := (values.map (fun v : Int => (v : ℚ))).sum / values.length
  let variance : ℚ :=
    (values.map (fun v : Int => ((v : ℚ) - mean_val) ^ 2)).sum / values.length
  let quality_warnings :=
    (if unique_values ≤ 2 then [QUALITY_WARN_STRAIGHT] else []) ++
    (if variance < 1/2 then [QUALITY_WARN_LOW_VAR] else [])
  { num_unique_responses := unique_values
    response_variance := roundTo 2 variance
    mean_response := roundTo 2 mean_val
    quality_flag := if quality_warnings.isEmpty then "ok" else "check"
    warnings := if quality_warnings.isEmpty then none else some quality_warnings }

/-- The per-entry loop of `validate_ratings` (source lines 384–388): for each
entry in dict order, `TypeError` if the value is not an `int`, then
`ValueError` if it is outside `[LIKERT_MIN, LIKERT_MAX]`. -/
def checkEntries : List (String × PyValue) → Except ScoringError Unit
  | [] => .ok ()
  | (code, .nonInt _) :: _ => .error (.typeMismatch code)
  | (code, .vint v) :: rest =>
    if LIKERT_MIN ≤ v ∧ v ≤ LIKERT_MAX then checkEntries rest
    else .error (.outOfRange code v)

/-- Embeds `validate_ratings` (source lines 371–388): missing codes (sorted) first,
then unknown codes (sorted), then the per-entry type/range loop. -/
def validate_ratings (ratings : List (String × PyValue)) : Except ScoringError Unit :=
  let codes := ratings.map Prod.fst
  let missing := taxonomyCodes.filter (fun c => !(codes.contains c))
  let extra := codes.filter (fun c => !(taxonomyCodes.contains c))
  if missing.isEmpty then
    if extra.isEmpty then checkEntries ratings
    else .error (.unknownItemsPresent (sortedStrings extra))
  else .error (.incompleteInput (sortedStrings missing))

/-- One DimensionResult dict (spec §3), as built at source lines 490–498. -/
structure DimensionResult where
  label : String
  score : ℚ
  level : String
  num_items : Nat
  num_reversed : Nat
  raw_mean : ℚ
  items : List String
deriving DecidableEq

/-- One item collected for a dimension by the first loop of
`compute_dimension_scores`: its code and dimension, its original rating and
the possibly reverse-coded rating. -/
structure CollectedItem where
  code : String
  dim : String
  raw : Int
  adjusted : Int
deriving DecidableEq

/-- The collection loop of `compute_dimension_scores` (source lines 463–471):
walk the ratings in dict order, look the code up in the taxonomy
(`KeyError` on an unknown code), skip non-main-scale items, reverse-code
where flagged (`reverse_likert` may raise), and record the item. -/
def collectMainItems : List (String × Int) → Except ScoringError (List CollectedItem)
  | [] => .ok []
  | (code, value) :: rest =>
    match lookupItem code with
    | none => .error (.keyError code)
    | some idef =>
      if idef.include_in_main_scale then
        match (if idef.reverse_scored then reverse_likert (.vint value) else .ok value) with
        | .error e => .error e
        | .ok final_val =>
          match collectMainItems rest with
          | .error e => .error e
          | .ok tail =>
            .ok ({ code := code, dim := idef.dimension_code,
                   raw := value, adjusted := final_val } :: tail)
      else collectMainItems rest

/-- Reads `ITEM_DEFINITIONS[code].reverse_scored` with a `false` default (the
source indexes directly; the default is dead for collected codes). -/
def reverseFlag (c : String) : Bool :=
  match lookupItem c with
  | some idef => idef.reverse_scored
  | none => false

/-- The body of the per-dimension loop of `compute_dimension_scores`
(source lines 474–498): `EmptyDimension` on zero collected items, mean of
adjusted values, raw mean, rescale to 0–100, classify, count reverse items,
sort the contributing codes. -/
def scoreDimension (entries : List CollectedItem) (dim_code label : String) :
    Except ScoringError DimensionResult :=
  let collected := entries.filter (fun e => e.dim == dim_code)
  if collected.isEmpty then .error (.emptyDimension dim_code)
  else
    let values : List ℚ := collected.map (fun e => (e.adjusted : ℚ))
    let raw_values : List ℚ := collected.map (fun e => (e.raw : ℚ))
    let mean_val := values.sum / values.length
    let raw_mean := raw_values.sum / raw_values.length
    let score := (mean_val - (LIKERT_MIN : ℚ)) / ((LIKERT_MAX : ℚ) - (LIKERT_MIN : ℚ)) * 100
    match classify_score score with
    | .error e => .error e
    | .ok level =>
      .ok { label := label
            score := roundTo 1 score
            level := level
            num_items := collected.length
            num_reversed := collected.countP (fun e => reverseFlag e.code)
            raw_mean := roundTo 2 raw_mean
            items := sortedStrings (collected.map (fun e => e.code)) }

/-- The per-dimension loop of `compute_dimension_scores`, in
`DIMENSION_LABELS` (= `dim_values.items()`) order; the first error wins. -/
def scoreDimensions (entries : List CollectedItem) :
    List (String × String) → Except ScoringError (List (String × DimensionResult))
  | [] => .ok []
  | (dim_code, label) :: rest =>
    match scoreDimension entries dim_code label with
    | .error e => .error e
    | .ok r =>
      match scoreDimensions entries rest with
      | .error e => .error e
      | .ok tail => .ok ((dim_code, r) :: tail)

/-- Embeds `compute_dimension_scores` (source lines 455–500). -/
def compute_dimension_scores (ratings : List (String × Int)) :
    Except ScoringError (List (String × DimensionResult)) :=
  match collectMainItems ratings with
  | .error e => .error e
  | .ok entries => scoreDimensions entries DIMENSION_LABELS

/-- The chronotype result dict (source lines 544–552). -/
structure ChronotypeIndex where
  label : String
  morning_tendency : ℚ
  evening_tendency : ℚ
  balance_score : ℚ
  interpretation : String
  num_items : Nat
  items : List String
deriving DecidableEq

def morning_items : List String := ["A8", "A13", "A14", "A15"]
def evening_items : List String := ["A9", "A16"]

/-- The guarded comprehension `[ratings[code] for code in items]` of
`compute_chronotype_index`: the first absent code raises the
`ValueError` naming it (source lines 516–520). -/
def lookupAll (ratings : List (String × Int)) :
    List String → Except ScoringError (List Int)
  | [] => .ok []
  | code :: rest =>
    match List.lookup code ratings with
    | none => .error (.missingChronotypeItem code)
    | some v =>
      match lookupAll ratings rest with
      | .error e => .error e
      | .ok tail => .ok (v :: tail)

/-- Embeds `compute_chronotype_index` (source lines 503–552).  The interpretation
strings are the source's German forms of the spec's buckets:
"Deutlicher Morgentyp" = strong morning type, "Leichter Morgentyp" = mild
morning type, "Neutraler/intermediärer Typ" = neutral/intermediate,
"Leichter Abendtyp" = mild evening type, "Deutlicher Abendtyp" = strong
evening type. -/
def compute_chronotype_index (ratings : List (String × Int)) :
    Except ScoringError ChronotypeIndex :=
  match lookupAll ratings morning_items with
  | .error e => .error e
  | .ok morning_vals =>
    match lookupAll ratings evening_items with
    | .error e => .error e
    | .ok evening_vals =>
      let morning_score : ℚ :=
        (morning_vals.map (fun v : Int => (v : ℚ))).sum / morning_vals.length
      let evening_score : ℚ :=
        (evening_vals.map (fun v : Int => (v : ℚ))).sum / evening_vals.length
      let morning_score_100 :=
        (morning_score - (LIKERT_MIN : ℚ)) / ((LIKERT_MAX : ℚ) - (LIKERT_MIN : ℚ)) * 100
      let evening_score_100 :=
        (evening_score - (LIKERT_MIN : ℚ)) / ((LIKERT_MAX : ℚ) - (LIKERT_MIN : ℚ)) * 100
      let balance := evening_score - morning_score
      let interpretation :=
        if balance < -4/5 then "Deutlicher Morgentyp"
        else if balance < -2/5 then "Leichter Morgentyp"
        else if balance < 2/5 then "Neutraler/intermediärer Typ"
        else if balance < 4/5 then "Leichter Abendtyp"
        else "Deutlicher Abendtyp"
      .ok { label := "Chronotyp-Profil"
            morning_tendency := roundTo 1 morning_score_100
            evening_tendency := roundTo 1 evening_score_100
            balance_score := roundTo 2 balance
            interpretation := interpretation
            num_items := morning_items.length + evening_items.length
            items := morning_items ++ evening_items }

/-- The avoidance entry of `additional_indices` (source lines 567–574). -/
structure AvoidanceIndex where
  label : String
  score : ℚ
  level : String
  num_items : Nat
  raw_mean : ℚ
  items : List String
deriving DecidableEq

/-- The `additional_indices` dict: `motivation_avoidance` present iff its two
items were supplied, `chronotype` always present. -/
structure AdditionalIndices where
  motivation_avoidance : Option AvoidanceIndex
  chronotype : ChronotypeIndex
deriving DecidableEq

def avoid_items : List String := ["M2", "M9"]

/-- The avoidance block of `compute_additional_indices` (source lines
561–574): only runs when both `M2` and `M9` are present. -/
def compute_avoidance (ratings : List (String × Int)) :
    Except ScoringError (Option AvoidanceIndex) :=
  match List.lookup "M2" ratings, List.lookup "M9" ratings with
  | some v2, some v9 =>
    let vals : List ℚ := [(v2 : ℚ), (v9 : ℚ)]
    let mean_val := vals.sum / vals.length
    let score := (mean_val - (LIKERT_MIN : ℚ)) / ((LIKERT_MAX : ℚ) - (LIKERT_MIN : ℚ)) * 100
    match classify_score score with
    | .error e => .error e
    | .ok level =>
      .ok (some { label := "Vermeidungsorientierung (Motivation)"
                  score := roundTo 1 score
                  level := level
                  num_items := vals.length
                  raw_mean := roundTo 2 mean_val
                  items := avoid_items })
  | _, _ => .ok none

/-- The chronotype block of `compute_additional_indices` (source lines
577–581): a `ValueError` from the chronotype computation is re-raised as an
internal `RuntimeError`. -/
def chronotypeOrInternal (ratings : List (String × Int)) :
    Except ScoringError ChronotypeIndex :=
  match compute_chronotype_index ratings with
  | .error (.missingChronotypeItem c) => .error (.internalChronotypeFault c)
  | .error e => .error e
  | .ok ch => .ok ch

/-- Embeds `compute_additional_indices` (source lines 555–583): avoidance first,
then chronotype. -/
def compute_additional_indices (ratings : List (String × Int)) :
    Except ScoringError AdditionalIndices :=
  match compute_avoidance ratings with
  | .error e => .error e
  | .ok av =>
    match chronotypeOrInternal ratings with
    | .error e => .error e
    | .ok ch => .ok { motivation_avoidance := av, chronotype := ch }

/-- The `meta` block of a profile (source lines 602–613). -/
structure ProfileMeta where
  version : String
  num_items_instrument : Nat
  num_items_answered : Nat
  num_items_main_scales : Nat
  num_items_additional : Nat
  num_reversed_total : Nat
  likert_min : Int
  likert_max : Int
  score_min : Nat
  score_max : Nat
deriving DecidableEq

/-- The top-level profile structure (source lines 597–614). -/
structure Profile where
  id : Option String
  dimensions : List (String × DimensionResult)
  additional_indices : AdditionalIndices
  response_quality : ResponseQuality
  meta : ProfileMeta
deriving DecidableEq

/-- Embeds `compute_profile` (source lines 586–615): strict validation, then
dimensions, additional indices, response quality and metadata.  The
ratings here are integer-valued (the function's `Dict[str, int]`
signature); validation sees them as `PyValue.vint`s. -/
def compute_profile (ratings : List (String × Int)) (profile_id : Option String) :
    Except ScoringError Profile :=
  match validate_ratings (ratings.map (fun p => (p.1, PyValue.vint p.2))) with
  | .error e => .error e
  | .ok _ =>
    match compute_dimension_scores ratings with
    | .error e => .error e
    | .ok dimensions =>
      match compute_additional_indices ratings with
      | .error e => .error e
      | .ok additional =>
        .ok { id := profile_id
              dimensions := dimensions
              additional_indices := additional
              response_quality := check_response_quality ratings
              meta := { version := VERSION
                        num_items_instrument := ITEM_DEFINITIONS.length
                        num_items_answered := ratings.length
                        num_items_main_scales :=
                          (dimensions.map (fun p => p.2.num_items)).sum
                        num_items_additional := INDEX_ITEMS_DEFINED.length
                        num_reversed_total :=
                          (dimensions.map (fun p => p.2.num_reversed)).sum
                        likert_min := LIKERT_MIN
                        likert_max := LIKERT_MAX
                        score_min := 0
                        score_max := 100 } }

/-! ## Specification-side definitions

The definitions below are *not* translations of source code; they restate
the spec's descriptions (taxonomy-order collection, the §4.4 rescaling
formula, arithmetic mean) so that the refinement theorems can compare the
engine against them. -/

/-- Arithmetic mean of a list of rationals (spec §4.4). -/
def meanQ (l : List ℚ) : ℚ := l.sum / l.length

/-- Spec §4.4's rescaling `score = (mean − 1) / (5 − 1) × 100`. -/
def likertRescale (m : ℚ) : ℚ := (m - 1) / (5 - 1) * 100

/-- The main-scale item codes of a dimension, in taxonomy order (spec §4.4:
"collect all taxonomy items with that dimension_code and
include_in_main_scale = true"). -/
def mainCodesOf (dim : String) : List String :=
  (ITEM_DEFINITIONS.filter
    (fun p => p.2.include_in_main_scale && p.2.dimension_code == dim)).map Prod.fst

/-- The rating a set assigns to a code (defaulting to 0; used only under a
hypothesis that the code is present). -/
def ratingOf (ratings : List (String × Int)) (c : String) : Int :=
  (List.lookup c ratings).getD 0

/-- Spec §4.4's per-item value: "apply reverse if reverse_scored, else pass
through", with `reverse(v) = 6 − v`. -/
def adjustedOf (ratings : List (String × Int)) (c : String) : Int :=
  match lookupItem c with
  | some idef => if idef.reverse_scored then 6 - ratingOf ratings c else ratingOf ratings c
  | none => ratingOf ratings c

/-- The list of items the collection loop of `compute_dimension_scores`
gathers, as a pure `filterMap` (proved equal to `collectMainItems` on
in-range inputs in `collectMainItems_eq_spec`). -/
def specCollect (ratings : List (String × Int)) : List CollectedItem :=
  ratings.filterMap (fun p =>
    match lookupItem p.1 with
    | some idef =>
      if idef.include_in_main_scale then
        some { code := p.1, dim := idef.dimension_code, raw := p.2,
               adjusted := if idef.reverse_scored then LIKERT_MIN + LIKERT_MAX - p.2 else p.2 }
      else none
    | none => none)

/-! ## Concrete rating sets used by witnesses and counterexamples -/

/-- All 88 items rated 3. -/
def all3 : List (String × Int) := taxonomyCodes.map (fun c => (c, 3))

/-- All 88 items rated 2. -/
def all2 : List (String × Int) := taxonomyCodes.map (fun c => (c, 2))

/-- All items rated 4 except the two avoidance items `M2`, `M9`, which are
absent (the 86-item set of spec §8's avoidance test). -/
def r86 : List (String × Int) :=
  (taxonomyCodes.filter (fun c => !(c == "M2" || c == "M9"))).map (fun c => (c, 4))

/-- A small rating set holding only the six chronotype items. -/
def chronoSample : List (String × Int) :=
  [("A8", 2), ("A13", 2), ("A14", 2), ("A15", 2), ("A9", 5), ("A16", 5)]

/-! ## Generic helper lemmas -/

instance {ε α : Type} [DecidableEq ε] [DecidableEq α] : DecidableEq (Except ε α) := fun a b =>
  match a, b with
  | .error e, .error f =>
    if h : e = f then .isTrue (by rw [h]) else .isFalse (by simp [h])
  | .error _, .ok _ => .isFalse (by simp)
  | .ok _, .error _ => .isFalse (by simp)
  | .ok x, .ok y =>
    if h : x = y then .isTrue (by rw [h]) else .isFalse (by simp [h])

theorem lookup_some_of_mem_keys {β : Type} {l : List (String × β)} {c : String}
    (h : c ∈ l.map Prod.fst) : ∃ v, List.lookup c l = some v := by
  induction l with
  | nil => simp at h
  | cons p t ih =>
    by_cases hc : c = p.1
    · exact ⟨p.2, by simp [List.lookup, hc]⟩
    · have : c ∈ t.map Prod.fst := by
        rcases List.mem_map.mp h with ⟨q, hq, hfst⟩
        rcases List.mem_cons.mp hq with rfl | hqt
        · exact absurd hfst.symm hc
        · exact List.mem_map.mpr ⟨q, hqt, hfst⟩
      rcases ih this with ⟨v, hv⟩
      exact ⟨v, by simpa [List.lookup, beq_false_of_ne hc] using hv⟩

theorem mem_of_lookup_some {β : Type} {l : List (String × β)} {c : String} {v : β}
    (h : List.lookup c l = some v) : (c, v) ∈ l := by
  induction l with
  | nil => simp [List.lookup] at h
  | cons p t ih =>
    by_cases hc : c = p.1
    · subst hc
      simp [List.lookup] at h
      simp [← h]
    · rw [List.lookup, beq_false_of_ne hc] at h
      exact List.mem_cons_of_mem _ (ih h)

theorem lookup_eq_some_of_mem {β : Type} {l : List (String × β)} {c : String} {v : β}
    (hnd : (l.map Prod.fst).Nodup) (h : (c, v) ∈ l) : List.lookup c l = some v := by
  induction l with
  | nil => simp at h
  | cons p t ih =>
    rw [List.map_cons, List.nodup_cons] at hnd
    rcases List.mem_cons.mp h with hhead | hmem
    · rw [← hhead]
      simp [List.lookup]
    · have hne : c ≠ p.1 := by
        intro hc
        exact hnd.1 (List.mem_map.mpr ⟨(c, v), hmem, hc⟩)
      rw [List.lookup, beq_false_of_ne hne]
      exact ih hnd.2 hmem

theorem lookup_eq_none_of_not_mem {β : Type} {l : List (String × β)} {c : String}
    (h : c ∉ l.map Prod.fst) : List.lookup c l = none := by
  induction l with
  | nil => simp [List.lookup]
  | cons p t ih =>
    have hne : c ≠ p.1 := fun hc => h (by simp [hc])
    rw [List.lookup, beq_false_of_ne hne]
    exact ih (fun hc => h (by simp at hc ⊢; exact Or.inr hc))

theorem sum_eq_of_const {l : List ℚ} {v : ℚ} (h : ∀ x ∈ l, x = v) :
    l.sum = l.length * v := by
  induction l with
  | nil => simp
  | cons a t ih =>
    have ha : a = v := h a (by simp)
    have ht := ih (fun x hx => h x (by simp [hx]))
    rw [List.sum_cons, ha, ht, List.length_cons]
    push_cast
    ring

theorem length_mul_le_sum {l : List ℚ} {a : ℚ} (h : ∀ x ∈ l, a ≤ x) :
    (l.length : ℚ) * a ≤ l.sum := by
  induction l with
  | nil => simp
  | cons x t ih =>
    have hx := h x (by simp)
    have ht := ih (fun y hy => h y (by simp [hy]))
    rw [List.sum_cons, List.length_cons]
    push_cast
    linarith

theorem sum_le_length_mul {l : List ℚ} {b : ℚ} (h : ∀ x ∈ l, x ≤ b) :
    l.sum ≤ (l.length : ℚ) * b := by
  induction l with
  | nil => simp
  | cons x t ih =>
    have hx := h x (by simp)
    have ht := ih (fun y hy => h y (by simp [hy]))
    rw [List.sum_cons, List.length_cons]
    push_cast
    linarith

/-- Mean of a constant list. -/
theorem meanQ_const {l : List ℚ} {v : ℚ} (hne : l ≠ []) (h : ∀ x ∈ l, x = v) :
    meanQ l = v := by
  have hlen : (l.length : ℚ) ≠ 0 := by
    have : 0 < l.length := List.length_pos.mpr hne
    positivity
  rw [meanQ, sum_eq_of_const h, mul_comm, mul_div_assoc, div_self hlen, mul_one]

/-- Mean of a nonempty list with all entries in `[a, b]` lies in `[a, b]`. -/
theorem meanQ_bounds {l : List ℚ} {a b : ℚ} (hne : l ≠ [])
    (h : ∀ x ∈ l, a ≤ x ∧ x ≤ b) : a ≤ meanQ l ∧ meanQ l ≤ b := by
  have hlen : 0 < (l.length : ℚ) := by
    have : 0 < l.length := List.length_pos.mpr hne
    exact_mod_cast this
  constructor
  · rw [meanQ, le_div_iff₀ hlen, mul_comm]
    exact length_mul_le_sum (fun x hx => (h x hx).1)
  · rw [meanQ, div_le_iff₀ hlen, mul_comm]
    exact sum_le_length_mul (fun x hx => (h x hx).2)

/-- Rounding `pyRound` of an integer is that integer. -/
theorem pyRound_intCast (n : ℤ) : pyRound (n : ℚ) = n := by
  unfold pyRound
  rw [Int.floor_intCast]
  norm_num

/-- Rounding `roundTo` of an integer is that integer. -/
theorem roundTo_intCast (d : ℕ) (n : ℤ) : roundTo d (n : ℚ) = (n : ℚ) := by
  have h1 : ((n : ℚ) * 10 ^ d) = ((n * 10 ^ d : ℤ) : ℚ) := by push_cast; ring
  have h10 : ((10 : ℚ) ^ d) ≠ 0 := by positivity
  rw [roundTo, h1, pyRound_intCast]
  push_cast
  field_simp

theorem exists_ok_of_toOption {α β : Type} {e : Except ScoringError α} {x : β} (f : α → β)
    (h : e.toOption.map f = some x) : ∃ a, e = .ok a ∧ f a = x := by
  cases e with
  | error err => simp [Except.toOption] at h
  | ok a => exact ⟨a, rfl, by simpa [Except.toOption] using h⟩

/-! ## Validator lemmas -/

theorem checkEntries_ok_iff (l : List (String × PyValue)) :
    checkEntries l = .ok () ↔
      ∀ p ∈ l, ∃ n : Int, p.2 = .vint n ∧ LIKERT_MIN ≤ n ∧ n ≤ LIKERT_MAX := by
  induction l with
  | nil => simp [checkEntries]
  | cons p t ih =>
    obtain ⟨c, v⟩ := p
    cases v with
    | nonInt d =>
      rw [checkEntries]
      constructor
      · intro h
        exact absurd h (by simp)
      · intro h
        rcases h (c, .nonInt d) (by simp) with ⟨n, hn, _⟩
        exact absurd hn (by simp)
    | vint n =>
      by_cases hr : LIKERT_MIN ≤ n ∧ n ≤ LIKERT_MAX
      · rw [checkEntries, if_pos hr, ih]
        constructor
        · intro h q hq
          rcases List.mem_cons.mp hq with hq' | hq'
          · exact ⟨n, by rw [hq'], hr.1, hr.2⟩
          · exact h q hq'
        · intro h q hq
          exact h q (List.mem_cons_of_mem _ hq)
      · rw [checkEntries, if_neg hr]
        constructor
        · intro h
          exact absurd h (by simp)
        · intro h
          rcases h (c, .vint n) (by simp) with ⟨m, hm, hm1, hm2⟩
          cases hm
          exact absurd ⟨hm1, hm2⟩ hr

theorem checkEntries_typeMismatch {l : List (String × PyValue)} {c : String}
    (h : checkEntries l = .error (.typeMismatch c)) :
    ∃ d, (c, PyValue.nonInt d) ∈ l := by
  induction l with
  | nil => simp [checkEntries] at h
  | cons p t ih =>
    obtain ⟨c', v⟩ := p
    cases v with
    | nonInt d =>
      rw [checkEntries] at h
      have : c' = c := by
        have := Except.error.inj h
        exact (ScoringError.typeMismatch.inj this)
      exact ⟨d, by simp [this]⟩
    | vint n =>
      rw [checkEntries] at h
      by_cases hr : LIKERT_MIN ≤ n ∧ n ≤ LIKERT_MAX
      · rw [if_pos hr] at h
        rcases ih h with ⟨d, hd⟩
        exact ⟨d, List.mem_cons_of_mem _ hd⟩
      · rw [if_neg hr] at h
        exact absurd (Except.error.inj h) (by simp)

theorem checkEntries_outOfRange {l : List (String × PyValue)} {c : String} {n : Int}
    (h : checkEntries l = .error (.outOfRange c n)) :
    (c, PyValue.vint n) ∈ l ∧ ¬(LIKERT_MIN ≤ n ∧ n ≤ LIKERT_MAX) := by
  induction l with
  | nil => simp [checkEntries] at h
  | cons p t ih =>
    obtain ⟨c', v⟩ := p
    cases v with
    | nonInt d =>
      rw [checkEntries] at h
      exact absurd (Except.error.inj h) (by simp)
    | vint m =>
      rw [checkEntries] at h
      by_cases hr : LIKERT_MIN ≤ m ∧ m ≤ LIKERT_MAX
      · rw [if_pos hr] at h
        rcases ih h with ⟨hd, hrange⟩
        exact ⟨List.mem_cons_of_mem _ hd, hrange⟩
      · rw [if_neg hr] at h
        have := Except.error.inj h
        have hc : c' = c ∧ m = n := by
          constructor
          · exact (ScoringError.outOfRange.inj this).1
          · exact (ScoringError.outOfRange.inj this).2
        rcases hc with ⟨rfl, rfl⟩
        exact ⟨by simp, hr⟩

/-- A prefix of valid in-range integer entries is skipped by the per-entry
loop. -/
theorem checkEntries_append_of_valid {l1 l2 : List (String × PyValue)}
    (h : ∀ p ∈ l1, ∃ n : Int, p.2 = .vint n ∧ LIKERT_MIN ≤ n ∧ n ≤ LIKERT_MAX) :
    checkEntries (l1 ++ l2) = checkEntries l2 := by
  induction l1 with
  | nil => rfl
  | cons p t ih =>
    obtain ⟨c, v⟩ := p
    cases v with
    | nonInt d =>
      obtain ⟨n, hn, _⟩ := h (c, .nonInt d) (by simp)
      exact absurd hn (by simp)
    | vint n =>
      obtain ⟨m, hm, hr1, hr2⟩ := h (c, .vint n) (by simp)
      have hnm : n = m := by simpa using hm
      subst hnm
      rw [List.cons_append, checkEntries, if_pos ⟨hr1, hr2⟩]
      exact ih (fun q hq => h q (List.mem_cons_of_mem _ hq))

/-- The per-entry loop only ever fails with `TypeMismatch` (naming an entry
whose value is not an integer) or `OutOfRange` (naming an entry whose
integer is outside [1, 5]). -/
theorem checkEntries_error_kinds {l : List (String × PyValue)} {e : ScoringError}
    (h : checkEntries l = .error e) :
    (∃ c d, e = .typeMismatch c ∧ (c, PyValue.nonInt d) ∈ l) ∨
    (∃ c n, e = .outOfRange c n ∧ (c, PyValue.vint n) ∈ l ∧
      ¬(LIKERT_MIN ≤ n ∧ n ≤ LIKERT_MAX)) := by
  induction l with
  | nil => simp [checkEntries] at h
  | cons p t ih =>
    obtain ⟨c, v⟩ := p
    cases v with
    | nonInt d =>
      rw [checkEntries] at h
      exact Or.inl ⟨c, d, (Except.error.inj h).symm, by simp⟩
    | vint n =>
      rw [checkEntries] at h
      by_cases hr : LIKERT_MIN ≤ n ∧ n ≤ LIKERT_MAX
      · rw [if_pos hr] at h
        rcases ih h with ⟨c2, d2, he, hm⟩ | ⟨c2, n2, he, hm, hrng⟩
        · exact Or.inl ⟨c2, d2, he, List.mem_cons_of_mem _ hm⟩
        · exact Or.inr ⟨c2, n2, he, List.mem_cons_of_mem _ hm, hrng⟩
      · rw [if_neg hr] at h
        exact Or.inr ⟨c, n, (Except.error.inj h).symm, by simp, hr⟩

theorem taxonomyCodes_nodup : taxonomyCodes.Nodup := by decide

theorem filter_beq_of_nodup {l : List String} (hnd : l.Nodup) {c0 : String} (hc0 : c0 ∈ l) :
    l.filter (fun c => c == c0) = [c0] := by
  induction l with
  | nil => simp at hc0
  | cons a t ih =>
    rw [List.nodup_cons] at hnd
    rcases List.mem_cons.mp hc0 with rfl | hc0'
    · have ht : t.filter (fun c => c == c0) = [] := by
        rw [List.filter_eq_nil_iff]
        intro b hb hbc
        exact hnd.1 (by rwa [show b = c0 from by simpa using hbc] at hb)
      simp [List.filter_cons, ht]
    · have ha : ¬(a == c0) = true := by
        intro hac
        exact hnd.1 (by rwa [show a = c0 from by simpa using hac])
      simp only [List.filter_cons]
      rw [if_neg ha]
      exact ih hnd.2 hc0'

theorem validate_ratings_eq_error_missing {ratings : List (String × PyValue)}
    (hmiss : taxonomyCodes.filter (fun c => !((ratings.map Prod.fst).contains c)) ≠ []) :
    validate_ratings ratings = .error (.incompleteInput
      (sortedStrings (taxonomyCodes.filter (fun c => !((ratings.map Prod.fst).contains c))))) := by
  simp only [validate_ratings]
  rw [if_neg (by simpa [List.isEmpty_iff] using hmiss)]

theorem validate_ratings_eq_error_extra {ratings : List (String × PyValue)}
    (hmiss : taxonomyCodes.filter (fun c => !((ratings.map Prod.fst).contains c)) = [])
    (hext : (ratings.map Prod.fst).filter (fun c => !(taxonomyCodes.contains c)) ≠ []) :
    validate_ratings ratings = .error (.unknownItemsPresent
      (sortedStrings ((ratings.map Prod.fst).filter (fun c => !(taxonomyCodes.contains c))))) := by
  simp only [validate_ratings]
  rw [if_pos (by rw [hmiss]; rfl), if_neg (by simpa [List.isEmpty_iff] using hext)]

theorem validate_ratings_eq_checkEntries {ratings : List (String × PyValue)}
    (hmiss : taxonomyCodes.filter (fun c => !((ratings.map Prod.fst).contains c)) = [])
    (hext : (ratings.map Prod.fst).filter (fun c => !(taxonomyCodes.contains c)) = []) :
    validate_ratings ratings = checkEntries ratings := by
  simp only [validate_ratings]
  rw [if_pos (by rw [hmiss]; rfl), if_pos (by rw [hext]; rfl)]

/-- The missing filter is empty iff every taxonomy code was supplied. -/
theorem missing_empty_iff (ratings : List (String × PyValue)) :
    taxonomyCodes.filter (fun c => !((ratings.map Prod.fst).contains c)) = [] ↔
      ∀ c ∈ taxonomyCodes, c ∈ ratings.map Prod.fst := by
  rw [List.filter_eq_nil_iff]
  constructor
  · intro h c hc
    have := h c hc
    simpa using this
  · intro h c hc
    simpa using h c hc

/-- The extra filter is empty iff every supplied code is a taxonomy code. -/
theorem extra_empty_iff (ratings : List (String × PyValue)) :
    (ratings.map Prod.fst).filter (fun c => !(taxonomyCodes.contains c)) = [] ↔
      ∀ c ∈ ratings.map Prod.fst, c ∈ taxonomyCodes := by
  rw [List.filter_eq_nil_iff]
  constructor
  · intro h c hc
    have := h c hc
    simpa using this
  · intro h c hc
    simpa using h c hc

/-- Deleting a single code `c0` from a complete rating set makes exactly
`[c0]` missing. -/
theorem validate_ratings_missing_one {c0 : String} (hc0 : c0 ∈ taxonomyCodes) :
    validate_ratings ((taxonomyCodes.filter (fun c => !(c == c0))).map
      (fun c => (c, PyValue.vint 3))) = .error (.incompleteInput [c0]) := by
  set rts := (taxonomyCodes.filter (fun c => !(c == c0))).map
    (fun c => (c, PyValue.vint 3)) with hrts
  have hkeys : rts.map Prod.fst = taxonomyCodes.filter (fun c => !(c == c0)) := by
    rw [hrts, List.map_map]
    exact List.map_id _
  have hmiss : taxonomyCodes.filter (fun c => !((rts.map Prod.fst).contains c)) = [c0] := by
    rw [hkeys]
    have hcong : taxonomyCodes.filter
        (fun c => !((taxonomyCodes.filter (fun c => !(c == c0))).contains c)) =
        taxonomyCodes.filter (fun c => c == c0) := by
      apply List.filter_congr
      intro c hc
      by_cases hcc : c = c0
      · subst hcc
        have : c ∉ taxonomyCodes.filter (fun x => !(x == c)) := by
          intro hmem
          have := List.of_mem_filter hmem
          simp at this
        simp [List.elem_iff, this]
      · have : c ∈ taxonomyCodes.filter (fun x => !(x == c0)) :=
          List.mem_filter.mpr ⟨hc, by simpa using hcc⟩
        simp [List.elem_iff, this, hcc]
    rw [hcong]
    exact filter_beq_of_nodup taxonomyCodes_nodup hc0
  have := @validate_ratings_eq_error_missing rts (by rw [hmiss]; simp)
  rw [hmiss] at this
  simpa [sortedStrings, List.insertionSort] using this

/-- C3: `validate_ratings` fails with `IncompleteInput` (sorted missing
codes) when a taxonomy code is absent; otherwise with
`UnknownItemsPresent` (sorted extra codes) when a non-taxonomy code is
present; a `TypeMismatch` error names an entry whose value is not an
integer and an `OutOfRange` error names an entry whose integer is outside
[1, 5]; and it returns normally exactly when the mapping holds all 88
taxonomy codes and nothing else, each an integer in [1, 5].  A set missing
exactly one required code fails with `IncompleteInput` naming that code.
Conversely (entry phase, forward direction): once no code is missing or
unknown, any failure is a `TypeMismatch` or `OutOfRange` naming a genuine
offender, and at the first offending entry — all earlier entries being
valid — a non-integer value makes validation fail with `TypeMismatch` for
that entry, and an out-of-range integer with `OutOfRange` for it (the type
check preceding the range check within the entry). -/
theorem validate_ratings_spec (ratings : List (String × PyValue)) :
    (taxonomyCodes.filter (fun c => !((ratings.map Prod.fst).contains c)) ≠ [] →
      validate_ratings ratings = .error (.incompleteInput
        (sortedStrings (taxonomyCodes.filter
          (fun c => !((ratings.map Prod.fst).contains c)))))) ∧
    (taxonomyCodes.filter (fun c => !((ratings.map Prod.fst).contains c)) = [] →
      (ratings.map Prod.fst).filter (fun c => !(taxonomyCodes.contains c)) ≠ [] →
      validate_ratings ratings = .error (.unknownItemsPresent
        (sortedStrings ((ratings.map Prod.fst).filter
          (fun c => !(taxonomyCodes.contains c)))))) ∧
    (validate_ratings ratings = .ok () ↔
      (∀ c ∈ taxonomyCodes, c ∈ ratings.map Prod.fst) ∧
      (∀ c ∈ ratings.map Prod.fst, c ∈ taxonomyCodes) ∧
      (∀ p ∈ ratings, ∃ n : Int, p.2 = .vint n ∧ LIKERT_MIN ≤ n ∧ n ≤ LIKERT_MAX)) ∧
    (∀ c, validate_ratings ratings = .error (.typeMismatch c) →
      ∃ d, (c, PyValue.nonInt d) ∈ ratings) ∧
    (∀ c n, validate_ratings ratings = .error (.outOfRange c n) →
      (c, PyValue.vint n) ∈ ratings ∧ ¬(LIKERT_MIN ≤ n ∧ n ≤ LIKERT_MAX)) ∧
    (∀ c0 ∈ taxonomyCodes,
      validate_ratings ((taxonomyCodes.filter (fun c => !(c == c0))).map
        (fun c => (c, PyValue.vint 3))) = .error (.incompleteInput [c0])) ∧
    (taxonomyCodes.filter (fun c => !((ratings.map Prod.fst).contains c)) = [] →
      (ratings.map Prod.fst).filter (fun c => !(taxonomyCodes.contains c)) = [] →
      ∀ e, validate_ratings ratings = .error e →
        (∃ c d, e = .typeMismatch c ∧ (c, PyValue.nonInt d) ∈ ratings) ∨
        (∃ c n, e = .outOfRange c n ∧ (c, PyValue.vint n) ∈ ratings ∧
          ¬(LIKERT_MIN ≤ n ∧ n ≤ LIKERT_MAX))) ∧
    (∀ l1 c v l2, ratings = l1 ++ (c, v) :: l2 →
      (∀ p ∈ l1, ∃ n : Int, p.2 = .vint n ∧ LIKERT_MIN ≤ n ∧ n ≤ LIKERT_MAX) →
      taxonomyCodes.filter (fun c2 => !((ratings.map Prod.fst).contains c2)) = [] →
      (ratings.map Prod.fst).filter (fun c2 => !(taxonomyCodes.contains c2)) = [] →
      (∀ d, v = PyValue.nonInt d → validate_ratings ratings = .error (.typeMismatch c)) ∧
      (∀ n, v = PyValue.vint n → ¬(LIKERT_MIN ≤ n ∧ n ≤ LIKERT_MAX) →
        validate_ratings ratings = .error (.outOfRange c n))) := by
  refine ⟨validate_ratings_eq_error_missing, validate_ratings_eq_error_extra,
    ?_, ?_, ?_, ?_, ?_, ?_⟩
  · constructor
    · intro h
      by_cases hmiss : taxonomyCodes.filter
          (fun c => !((ratings.map Prod.fst).contains c)) = []
      · by_cases hext : (ratings.map Prod.fst).filter
            (fun c => !(taxonomyCodes.contains c)) = []
        · rw [validate_ratings_eq_checkEntries hmiss hext] at h
          exact ⟨(missing_empty_iff ratings).mp hmiss, (extra_empty_iff ratings).mp hext,
            (checkEntries_ok_iff ratings).mp h⟩
        · rw [validate_ratings_eq_error_extra hmiss hext] at h
          exact absurd h (by simp)
      · rw [validate_ratings_eq_error_missing hmiss] at h
        exact absurd h (by simp)
    · rintro ⟨hall, hsub, hvals⟩
      rw [validate_ratings_eq_checkEntries ((missing_empty_iff ratings).mpr hall)
        ((extra_empty_iff ratings).mpr hsub)]
      exact (checkEntries_ok_iff ratings).mpr hvals
  · intro c h
    by_cases hmiss : taxonomyCodes.filter (fun c => !((ratings.map Prod.fst).contains c)) = []
    · by_cases hext : (ratings.map Prod.fst).filter (fun c => !(taxonomyCodes.contains c)) = []
      · rw [validate_ratings_eq_checkEntries hmiss hext] at h
        exact checkEntries_typeMismatch h
      · rw [validate_ratings_eq_error_extra hmiss hext] at h
        exact absurd (Except.error.inj h) (by simp)
    · rw [validate_ratings_eq_error_missing hmiss] at h
      exact absurd (Except.error.inj h) (by simp)
  · intro c n h
    by_cases hmiss : taxonomyCodes.filter (fun c => !((ratings.map Prod.fst).contains c)) = []
    · by_cases hext : (ratings.map Prod.fst).filter (fun c => !(taxonomyCodes.contains c)) = []
      · rw [validate_ratings_eq_checkEntries hmiss hext] at h
        exact checkEntries_outOfRange h
      · rw [validate_ratings_eq_error_extra hmiss hext] at h
        exact absurd (Except.error.inj h) (by simp)
    · rw [validate_ratings_eq_error_missing hmiss] at h
      exact absurd (Except.error.inj h) (by simp)
  · intro c0 hc0
    exact validate_ratings_missing_one hc0
  · intro hmiss hext e h
    rw [validate_ratings_eq_checkEntries hmiss hext] at h
    exact checkEntries_error_kinds h
  · intro l1 c v l2 hdec hvalid hmiss hext
    have hve : validate_ratings ratings = checkEntries ((c, v) :: l2) := by
      rw [validate_ratings_eq_checkEntries hmiss hext, hdec,
        checkEntries_append_of_valid hvalid]
    constructor
    · intro d hd
      subst hd
      rw [hve, checkEntries]
    · intro n hn hr
      subst hn
      rw [hve, checkEntries, if_neg hr]

/-- A complete rating set whose first entry holds a non-integer value. -/
def rBadType : List (String × PyValue) :=
  ("A1", PyValue.nonInt "str") ::
    (taxonomyCodes.filter (fun c => !(c == "A1"))).map (fun c => (c, PyValue.vint 3))

/-- A complete rating set whose first entry holds the out-of-range integer 7. -/
def rBadRange : List (String × PyValue) :=
  ("A1", PyValue.vint 7) ::
    (taxonomyCodes.filter (fun c => !(c == "A1"))).map (fun c => (c, PyValue.vint 3))

/-- C3 witness: the set missing exactly `"S5"` fails with `IncompleteInput`
naming exactly `"S5"`; the full all-3 set validates. -/
theorem validate_ratings_spec_witness :
    validate_ratings ((taxonomyCodes.filter (fun c => !(c == "S5"))).map
      (fun c => (c, PyValue.vint 3))) = .error (.incompleteInput ["S5"]) ∧
    validate_ratings (all3.map (fun p => (p.1, PyValue.vint p.2))) = .ok () ∧
    validate_ratings rBadType = .error (.typeMismatch "A1") ∧
    validate_ratings rBadRange = .error (.outOfRange "A1" 7) := by
  refine ⟨?_, ?_, ?_, ?_⟩
  · exact (validate_ratings_spec []).2.2.2.2.2.1 "S5" (by decide)
  · refine (validate_ratings_spec (all3.map (fun p => (p.1, PyValue.vint p.2)))).2.2.1.mpr
      ⟨by decide, by decide, ?_⟩
    intro p hp
    rcases List.mem_map.mp hp with ⟨q, hq, rfl⟩
    rcases List.mem_map.mp (show q ∈ taxonomyCodes.map (fun c => (c, (3 : Int))) by
      simpa [all3] using hq) with ⟨c, _, rfl⟩
    exact ⟨3, rfl, by decide, by decide⟩
  · exact ((validate_ratings_spec rBadType).2.2.2.2.2.2.2 [] "A1" (PyValue.nonInt "str")
      ((taxonomyCodes.filter (fun c => !(c == "A1"))).map (fun c => (c, PyValue.vint 3)))
      rfl (by simp) (by decide) (by decide)).1 "str" rfl
  · exact ((validate_ratings_spec rBadRange).2.2.2.2.2.2.2 [] "A1" (PyValue.vint 7)
      ((taxonomyCodes.filter (fun c => !(c == "A1"))).map (fun c => (c, PyValue.vint 3)))
      rfl (by simp) (by decide) (by decide)).2 7 rfl (by decide)

/-- C4: on integers in [1, 5], `reverse_likert` returns `6 − v` (so 1↦5,
2↦4, 3↦3, 5↦1) and is self-inverse; an integer outside [1, 5] gives the
`OutOfRange` error and a non-integer the `TypeMismatch` error. -/
theorem reverse_likert_spec (v : Int) (h1 : LIKERT_MIN ≤ v) (h2 : v ≤ LIKERT_MAX) :
    reverse_likert (.vint v) = .ok (6 - v) ∧
    reverse_likert (.vint (6 - v)) = .ok v ∧
    (reverse_likert (.vint v)).bind (fun w => reverse_likert (.vint w)) = .ok v ∧
    reverse_likert (.vint 1) = .ok 5 ∧
    reverse_likert (.vint 2) = .ok 4 ∧
    reverse_likert (.vint 3) = .ok 3 ∧
    reverse_likert (.vint 5) = .ok 1 ∧
    (∀ w : Int, ¬(LIKERT_MIN ≤ w ∧ w ≤ LIKERT_MAX) →
      reverse_likert (.vint w) = .error (.outOfRange "reverse_likert" w)) ∧
    (∀ d, reverse_likert (.nonInt d) = .error (.typeMismatch d)) := by
  simp only [LIKERT_MIN, LIKERT_MAX] at h1 h2
  have hv : reverse_likert (.vint v) = .ok (6 - v) := by
    rw [reverse_likert, if_pos (show LIKERT_MIN ≤ v ∧ v ≤ LIKERT_MAX by
      simp only [LIKERT_MIN, LIKERT_MAX]; omega)]
    congr 1
  have hv6 : reverse_likert (.vint (6 - v)) = .ok v := by
    rw [reverse_likert, if_pos (show LIKERT_MIN ≤ 6 - v ∧ 6 - v ≤ LIKERT_MAX by
      simp only [LIKERT_MIN, LIKERT_MAX]; omega)]
    congr 1
    simp only [LIKERT_MIN, LIKERT_MAX]
    try omega
  refine ⟨hv, hv6, ?_, by decide, by decide, by decide, by decide, ?_, ?_⟩
  · rw [hv]
    simpa [Except.bind] using hv6
  · intro w hw
    rw [reverse_likert, if_neg hw]
  · intro d
    rfl

/-- C4 witness: at `v = 2` the hypotheses hold and reversal gives 4 and back. -/
theorem reverse_likert_spec_witness :
    (LIKERT_MIN ≤ (2 : Int) ∧ (2 : Int) ≤ LIKERT_MAX) ∧
    reverse_likert (.vint 2) = .ok 4 ∧ reverse_likert (.vint 4) = .ok 2 := by
  refine ⟨by decide, ?_⟩
  have h := reverse_likert_spec 2 (by decide) (by decide)
  exact ⟨h.1, by simpa using h.2.1⟩

/-- C5: on scores in [0, 100], `classify_score` returns the low bucket
("niedrig") exactly below 40, the mid bucket ("mittel") exactly on
[40, 75), and the high bucket ("hoch") exactly from 75 up; the boundary
cases 0, 39.9, 40, 74.9, 75 and 100 land as the spec lists them. -/
theorem classify_score_spec (s : ℚ) (h0 : 0 ≤ s) (h1 : s ≤ 100) :
    (classify_score s = .ok "niedrig" ↔ s < 40) ∧
    (classify_score s = .ok "mittel" ↔ 40 ≤ s ∧ s < 75) ∧
    (classify_score s = .ok "hoch" ↔ 75 ≤ s) ∧
    classify_score 0 = .ok "niedrig" ∧
    classify_score (399/10) = .ok "niedrig" ∧
    classify_score 40 = .ok "mittel" ∧
    classify_score (749/10) = .ok "mittel" ∧
    classify_score 75 = .ok "hoch" ∧
    classify_score 100 = .ok "hoch" := by
  have hcase : ∀ t : ℚ, 0 ≤ t → t ≤ 100 →
      classify_score t = (if t < 40 then .ok "niedrig"
        else if t < 75 then .ok "mittel" else .ok "hoch") := by
    intro t ht0 ht1
    rw [classify_score, if_pos ⟨ht0, ht1⟩]
  rw [hcase s h0 h1]
  refine ⟨?_, ?_, ?_, ?_, ?_, ?_, ?_, ?_, ?_⟩
  · split_ifs with h40 h75
    · simp only [Except.ok.injEq, iff_true_intro rfl, true_iff]
      exact h40
    · simp only [Except.ok.injEq]
      constructor
      · intro hh; exact absurd hh (by decide)
      · intro hh; exact absurd hh h40
    · simp only [Except.ok.injEq]
      constructor
      · intro hh; exact absurd hh (by decide)
      · intro hh; exact absurd hh h40
  · split_ifs with h40 h75
    · simp only [Except.ok.injEq]
      constructor
      · intro hh; exact absurd hh (by decide)
      · rintro ⟨hge, _⟩; linarith
    · simp only [Except.ok.injEq, iff_true_intro rfl, true_iff]
      exact ⟨not_lt.mp h40, h75⟩
    · simp only [Except.ok.injEq]
      constructor
      · intro hh; exact absurd hh (by decide)
      · rintro ⟨_, hlt⟩; exact absurd hlt h75
  · split_ifs with h40 h75
    · simp only [Except.ok.injEq]
      constructor
      · intro hh; exact absurd hh (by decide)
      · intro hge; linarith
    · simp only [Except.ok.injEq]
      constructor
      · intro hh; exact absurd hh (by decide)
      · intro hge; exact absurd (lt_of_le_of_lt hge h75) (by norm_num)
    · simp only [Except.ok.injEq, iff_true_intro rfl, true_iff]
      exact not_lt.mp h75
  · rw [hcase 0 (by norm_num) (by norm_num)]
    norm_num
  · rw [hcase (399/10) (by norm_num) (by norm_num)]
    norm_num
  · rw [hcase 40 (by norm_num) (by norm_num)]
    norm_num
  · rw [hcase (749/10) (by norm_num) (by norm_num)]
    norm_num
  · rw [hcase 75 (by norm_num) (by norm_num)]
    norm_num
  · rw [hcase 100 (by norm_num) (by norm_num)]
    norm_num

/-- C5 witness: at score 50 the hypotheses hold and the bucket is the mid one. -/
theorem classify_score_spec_witness :
    ((0 : ℚ) ≤ 50 ∧ (50 : ℚ) ≤ 100) ∧ classify_score 50 = .ok "mittel" := by
  refine ⟨by norm_num, ?_⟩
  exact (classify_score_spec 50 (by norm_num) (by norm_num)).2.1.mpr (by norm_num)

/-- C9: the taxonomy holds exactly 88 items, 80 main-scale, 8 auxiliary,
27 reverse-scored main-scale items; each item's dimension code is one of
the 6 fixed dimensions, each of which has a nonempty human-readable
label; and the module-level start-up self-check (the import-time
asserts) passes. -/
theorem taxonomy_invariants :
    taxonomy_selfcheck = true ∧
    ITEM_DEFINITIONS.length = 88 ∧
    MAIN_ITEMS_DEFINED.length = 80 ∧
    INDEX_ITEMS_DEFINED.length = 8 ∧
    MAIN_ITEMS_DEFINED.countP (fun i => i.reverse_scored) = 27 ∧
    DIMENSION_LABELS.length = 6 ∧
    (∀ p ∈ ITEM_DEFINITIONS, p.2.dimension_code ∈ DIMENSION_LABELS.map Prod.fst) ∧
    (∀ q ∈ DIMENSION_LABELS, q.2 ≠ "") := by
  refine ⟨by decide, by decide, by decide, by decide, by decide, by decide, by decide, by decide⟩

/-! ## Dimension-aggregation lemmas -/

theorem classify_score_isOk {s : ℚ} (h0 : 0 ≤ s) (h1 : s ≤ 100) :
    ∃ level, classify_score s = .ok level := by
  rw [classify_score, if_pos ⟨h0, h1⟩]
  by_cases h40 : s < 40
  · exact ⟨"niedrig", by rw [if_pos h40]⟩
  · by_cases h75 : s < 75
    · exact ⟨"mittel", by rw [if_neg h40, if_pos h75]⟩
    · exact ⟨"hoch", by rw [if_neg h40, if_neg h75]⟩

/-- On known codes with in-range values the collection loop cannot fail and
gathers exactly the `filterMap` of `specCollect`. -/
theorem collectMainItems_eq_spec {ratings : List (String × Int)}
    (hknown : ∀ p ∈ ratings, (lookupItem p.1).isSome)
    (hrange : ∀ p ∈ ratings, LIKERT_MIN ≤ p.2 ∧ p.2 ≤ LIKERT_MAX) :
    collectMainItems ratings = .ok (specCollect ratings) := by
  induction ratings with
  | nil => rfl
  | cons p t ih =>
    obtain ⟨c, v⟩ := p
    obtain ⟨idef, hidef⟩ := Option.isSome_iff_exists.mp (hknown (c, v) (by simp))
    have htail := ih (fun q hq => hknown q (List.mem_cons_of_mem _ hq))
      (fun q hq => hrange q (List.mem_cons_of_mem _ hq))
    have hr := hrange (c, v) (by simp)
    simp only [collectMainItems, hidef]
    by_cases hinc : idef.include_in_main_scale
    · rw [if_pos hinc]
      have hrev : (if idef.reverse_scored then reverse_likert (.vint v) else .ok v) =
          .ok (if idef.reverse_scored then LIKERT_MIN + LIKERT_MAX - v else v) := by
        by_cases hrv : idef.reverse_scored
        · rw [if_pos hrv, if_pos hrv, reverse_likert, if_pos hr]
        · rw [if_neg hrv, if_neg hrv]
      rw [hrev, htail]
      simp only [specCollect, List.filterMap_cons, hidef, hinc, if_pos]
    · rw [if_neg hinc, htail]
      simp only [specCollect, List.filterMap_cons, hidef]
      rw [if_neg hinc]

/-- Membership in `specCollect`. -/
theorem mem_specCollect {ratings : List (String × Int)} {e : CollectedItem} :
    e ∈ specCollect ratings ↔
      ∃ p ∈ ratings, ∃ idef, lookupItem p.1 = some idef ∧
        idef.include_in_main_scale = true ∧
        e = { code := p.1, dim := idef.dimension_code, raw := p.2,
              adjusted := if idef.reverse_scored then LIKERT_MIN + LIKERT_MAX - p.2
                else p.2 } := by
  rw [specCollect, List.mem_filterMap]
  constructor
  · rintro ⟨p, hp, hfp⟩
    rcases hli : lookupItem p.1 with _ | idef
    · simp [hli] at hfp
    · simp only [hli] at hfp
      by_cases hinc : idef.include_in_main_scale
      · rw [if_pos hinc] at hfp
        exact ⟨p, hp, idef, hli, hinc, (Option.some.inj hfp).symm⟩
      · rw [if_neg hinc] at hfp
        exact absurd hfp (by simp)
  · rintro ⟨p, hp, idef, hli, hinc, rfl⟩
    refine ⟨p, hp, ?_⟩
    simp only [hli]
    rw [if_pos hinc]

/-- The collected codes form a sublist of the rating keys. -/
theorem specCollect_codes_sublist (ratings : List (String × Int)) :
    ((specCollect ratings).map (fun e => e.code)).Sublist (ratings.map Prod.fst) := by
  induction ratings with
  | nil => simp [specCollect]
  | cons p t ih =>
    rw [specCollect, List.filterMap_cons]
    rcases hli : lookupItem p.1 with _ | idef
    · simp only [hli]
      exact List.Sublist.cons _ ih
    · simp only [hli]
      by_cases hinc : idef.include_in_main_scale
      · rw [if_pos hinc]
        exact List.Sublist.cons₂ _ ih
      · rw [if_neg hinc]
        exact List.Sublist.cons _ ih

theorem ITEM_DEFINITIONS_keys_nodup : (ITEM_DEFINITIONS.map Prod.fst).Nodup :=
  taxonomyCodes_nodup

/-- Taxonomy-order spec-side collection for a dimension. -/
def specDimItems (ratings : List (String × Int)) (dim : String) : List CollectedItem :=
  (mainCodesOf dim).map (fun c =>
    { code := c, dim := dim, raw := ratingOf ratings c, adjusted := adjustedOf ratings c })

theorem mainCodesOf_nodup (dim : String) : (mainCodesOf dim).Nodup := by
  have hsub : (mainCodesOf dim).Sublist taxonomyCodes :=
    List.Sublist.map Prod.fst (List.filter_sublist ITEM_DEFINITIONS)
  exact hsub.nodup taxonomyCodes_nodup

theorem mem_mainCodesOf {dim c : String} :
    c ∈ mainCodesOf dim ↔ ∃ idef, lookupItem c = some idef ∧
      idef.include_in_main_scale = true ∧ idef.dimension_code = dim := by
  rw [mainCodesOf]
  constructor
  · intro hc
    rcases List.mem_map.mp hc with ⟨pr, hpr, rfl⟩
    have hmem := List.mem_of_mem_filter hpr
    have hflag := List.of_mem_filter hpr
    simp only [Bool.and_eq_true, beq_iff_eq] at hflag
    exact ⟨pr.2, lookup_eq_some_of_mem ITEM_DEFINITIONS_keys_nodup
      (by simpa using hmem), hflag.1, hflag.2⟩
  · rintro ⟨idef, hli, hinc, hdim⟩
    have hmem : (c, idef) ∈ ITEM_DEFINITIONS := mem_of_lookup_some hli
    exact List.mem_map.mpr ⟨(c, idef),
      List.mem_filter.mpr ⟨hmem, by simp [hinc, hdim]⟩, rfl⟩


/-- Under a complete nodup rating set, the engine's per-dimension collection
is a permutation of the taxonomy-order spec-side collection. -/
theorem specCollect_filter_perm {ratings : List (String × Int)} {dim : String}
    (hnd : (ratings.map Prod.fst).Nodup)
    (hsup : ∀ c ∈ taxonomyCodes, c ∈ ratings.map Prod.fst) :
    ((specCollect ratings).filter (fun e => e.dim == dim)).Perm
      (specDimItems ratings dim) := by
  have hnd1 : ((specCollect ratings).filter (fun e => e.dim == dim)).Nodup := by
    have h1 : ((specCollect ratings).map (fun e => e.code)).Nodup :=
      (specCollect_codes_sublist ratings).nodup hnd
    have h2 : (((specCollect ratings).filter (fun e => e.dim == dim)).map
        (fun e => e.code)).Nodup :=
      (((specCollect ratings).filter_sublist).map (fun e => e.code)).nodup h1
    exact List.Nodup.of_map _ h2
  have hnd2 : (specDimItems ratings dim).Nodup := by
    have h2 : ((specDimItems ratings dim).map (fun e => e.code)).Nodup := by
      have heq : (specDimItems ratings dim).map (fun e => e.code) = mainCodesOf dim := by
        rw [specDimItems, List.map_map]
        exact List.map_id _
      rw [heq]
      exact mainCodesOf_nodup dim
    exact List.Nodup.of_map _ h2
  rw [List.perm_ext_iff_of_nodup hnd1 hnd2]
  intro e
  constructor
  · intro he
    have hdim := List.of_mem_filter he
    have hsc := List.mem_of_mem_filter he
    rcases mem_specCollect.mp hsc with ⟨p, hp, idef, hli, hinc, rfl⟩
    obtain ⟨c, v⟩ := p
    simp only [beq_iff_eq] at hdim
    have hlr : List.lookup c ratings = some v := lookup_eq_some_of_mem hnd hp
    have hro : ratingOf ratings c = v := by rw [ratingOf, hlr]; rfl
    refine List.mem_map.mpr ⟨c, mem_mainCodesOf.mpr ⟨idef, hli, hinc, hdim⟩, ?_⟩
    rw [adjustedOf, hli, hro, hdim]
    congr 1
  · intro he
    rcases List.mem_map.mp he with ⟨c, hcmain, rfl⟩
    rcases mem_mainCodesOf.mp hcmain with ⟨idef, hli, hinc, hdimc⟩
    have hctax : c ∈ taxonomyCodes :=
      List.mem_map.mpr ⟨(c, idef), mem_of_lookup_some hli, rfl⟩
    obtain ⟨v, hlv⟩ := lookup_some_of_mem_keys (hsup c hctax)
    have hro : ratingOf ratings c = v := by rw [ratingOf, hlv]; rfl
    refine List.mem_filter.mpr ⟨mem_specCollect.mpr
      ⟨(c, v), mem_of_lookup_some hlv, idef, hli, hinc, ?_⟩, by simp⟩
    rw [adjustedOf, hli, hro, hdimc]
    congr 1

/-- Sorting via `sortedStrings` is invariant under permutation. -/
theorem sortedStrings_perm_eq {l1 l2 : List String} (h : l1.Perm l2) :
    sortedStrings l1 = sortedStrings l2 :=
  List.eq_of_perm_of_sorted
    ((List.perm_insertionSort _ l1).trans (h.trans (List.perm_insertionSort _ l2).symm))
    (List.sorted_insertionSort _ l1) (List.sorted_insertionSort _ l2)

/-- Scoring `scoreDimension` on a nonempty collection of in-range values succeeds,
with the fields of spec §4.4. -/
theorem scoreDimension_ok {entries : List CollectedItem} {dim label : String}
    (hne : entries.filter (fun e => e.dim == dim) ≠ [])
    (hrange : ∀ i ∈ entries.filter (fun e => e.dim == dim),
      (1 : ℚ) ≤ (i.adjusted : ℚ) ∧ (i.adjusted : ℚ) ≤ 5) :
    ∃ level, classify_score (likertRescale (meanQ
        ((entries.filter (fun e => e.dim == dim)).map
          (fun e => (e.adjusted : ℚ))))) = .ok level ∧
      scoreDimension entries dim label = .ok
        { label := label
          score := roundTo 1 (likertRescale (meanQ
            ((entries.filter (fun e => e.dim == dim)).map (fun e => (e.adjusted : ℚ)))))
          level := level
          num_items := (entries.filter (fun e => e.dim == dim)).length
          num_reversed := (entries.filter (fun e => e.dim == dim)).countP
            (fun e => reverseFlag e.code)
          raw_mean := roundTo 2 (meanQ
            ((entries.filter (fun e => e.dim == dim)).map (fun e => (e.raw : ℚ))))
          items := sortedStrings ((entries.filter (fun e => e.dim == dim)).map
            (fun e => e.code)) } := by
  set collected := entries.filter (fun e => e.dim == dim) with hcol
  have hmapne : collected.map (fun e => (e.adjusted : ℚ)) ≠ [] := by
    simpa using hne
  have hmean := meanQ_bounds hmapne (by
    intro x hx
    rcases List.mem_map.mp hx with ⟨i, hi, rfl⟩
    exact hrange i hi)
  set m := meanQ (collected.map (fun e => (e.adjusted : ℚ))) with hm
  have hsc0 : 0 ≤ likertRescale m := by
    rw [likertRescale]
    nlinarith [hmean.1]
  have hsc1 : likertRescale m ≤ 100 := by
    rw [likertRescale]
    nlinarith [hmean.2]
  obtain ⟨level, hlevel⟩ := classify_score_isOk hsc0 hsc1
  refine ⟨level, hlevel, ?_⟩
  have hscore_eq : (m - (LIKERT_MIN : ℚ)) / ((LIKERT_MAX : ℚ) - (LIKERT_MIN : ℚ)) * 100 =
      likertRescale m := by
    rw [likertRescale]
    norm_num [LIKERT_MIN, LIKERT_MAX]
  simp only [scoreDimension, ← hcol]
  rw [if_neg (by simpa [List.isEmpty_iff] using hne)]
  have hm_def : (collected.map (fun e => (e.adjusted : ℚ))).sum /
      ((collected.map (fun e => (e.adjusted : ℚ))).length : ℚ) = m := by
    rw [hm, meanQ]
  have hraw_def : (collected.map (fun e => (e.raw : ℚ))).sum /
      ((collected.map (fun e => (e.raw : ℚ))).length : ℚ) =
      meanQ (collected.map (fun e => (e.raw : ℚ))) := by
    rw [meanQ]
  rw [hm_def, hraw_def, hscore_eq, hlevel]

theorem meanQ_perm {l1 l2 : List ℚ} (h : l1.Perm l2) : meanQ l1 = meanQ l2 := by
  rw [meanQ, meanQ, h.sum_eq, h.length_eq]

theorem scoreDimension_empty {entries : List CollectedItem} {dim label : String}
    (h : entries.filter (fun e => e.dim == dim) = []) :
    scoreDimension entries dim label = .error (.emptyDimension dim) := by
  simp only [scoreDimension, h]
  rfl

theorem scoreDimension_error_cases {entries : List CollectedItem} {dim label : String}
    {err : ScoringError}
    (hrange : ∀ i ∈ entries.filter (fun e => e.dim == dim),
      (1 : ℚ) ≤ (i.adjusted : ℚ) ∧ (i.adjusted : ℚ) ≤ 5)
    (h : scoreDimension entries dim label = .error err) :
    err = .emptyDimension dim ∧ entries.filter (fun e => e.dim == dim) = [] := by
  by_cases hne : entries.filter (fun e => e.dim == dim) = []
  · rw [scoreDimension_empty hne] at h
    exact ⟨(Except.error.inj h).symm, hne⟩
  · obtain ⟨level, _, hok⟩ := scoreDimension_ok hne hrange
    rw [hok] at h
    exact absurd h (by simp)

theorem scoreDimensions_lookup {entries : List CollectedItem}
    {labels : List (String × String)}
    (hnd : (labels.map Prod.fst).Nodup)
    (h : ∀ q ∈ labels, ∃ dr, scoreDimension entries q.1 q.2 = .ok dr) :
    ∃ res, scoreDimensions entries labels = .ok res ∧
      ∀ q ∈ labels, ∃ dr, List.lookup q.1 res = some dr ∧
        scoreDimension entries q.1 q.2 = .ok dr := by
  induction labels with
  | nil => exact ⟨[], rfl, by simp⟩
  | cons q t ih =>
    obtain ⟨d, lab⟩ := q
    obtain ⟨dq, hdq⟩ := h (d, lab) (by simp)
    rw [List.map_cons, List.nodup_cons] at hnd
    obtain ⟨res', hres', hlook⟩ := ih hnd.2 (fun r hr => h r (List.mem_cons_of_mem _ hr))
    refine ⟨(d, dq) :: res', ?_, ?_⟩
    · rw [scoreDimensions, hdq, hres']
    · intro r hr
      rcases List.mem_cons.mp hr with hh | ht
      · refine ⟨dq, ?_, by rw [hh]; exact hdq⟩
        rw [hh]
        simp [List.lookup]
      · have hne : r.1 ≠ d := fun hc =>
          hnd.1 (by rw [← hc]; exact List.mem_map.mpr ⟨r, ht, rfl⟩)
        obtain ⟨dr, hl, hs⟩ := hlook r ht
        refine ⟨dr, ?_, hs⟩
        rw [List.lookup, beq_false_of_ne hne]
        exact hl

theorem scoreDimensions_ok_component {entries : List CollectedItem}
    {labels : List (String × String)} {res : List (String × DimensionResult)}
    (h : scoreDimensions entries labels = .ok res) :
    ∀ q ∈ labels, ∃ dr, scoreDimension entries q.1 q.2 = .ok dr := by
  induction labels generalizing res with
  | nil => simp
  | cons q t ih =>
    obtain ⟨d, lab⟩ := q
    rw [scoreDimensions] at h
    rcases hq : scoreDimension entries d lab with e | dq
    · simp only [hq] at h
      exact absurd h (by simp)
    · simp only [hq] at h
      rcases ht : scoreDimensions entries t with e | tail
      · simp only [ht] at h
        exact absurd h (by simp)
      · intro r hr
        rcases List.mem_cons.mp hr with hh | hmem
        · exact ⟨dq, by rw [hh]; exact hq⟩
        · exact ih ht r hmem

theorem scoreDimensions_error_cases {entries : List CollectedItem}
    {labels : List (String × String)} {err : ScoringError}
    (h : scoreDimensions entries labels = .error err) :
    ∃ q ∈ labels, scoreDimension entries q.1 q.2 = .error err := by
  induction labels with
  | nil => exact absurd h (by simp [scoreDimensions])
  | cons q t ih =>
    obtain ⟨d, lab⟩ := q
    rw [scoreDimensions] at h
    rcases hq : scoreDimension entries d lab with e | dq
    · simp only [hq] at h
      exact ⟨(d, lab), by simp, by rw [hq]; rw [Except.error.inj h]⟩
    · simp only [hq] at h
      rcases ht : scoreDimensions entries t with e | tail
      · simp only [ht] at h
        obtain ⟨r, hr, hrs⟩ := ih (by rw [ht]; rw [Except.error.inj h])
        exact ⟨r, List.mem_cons_of_mem _ hr, hrs⟩
      · simp only [ht] at h
        exact absurd h (by simp)

theorem lookupItem_isSome_of_mem_tax {c : String} (h : c ∈ taxonomyCodes) :
    (lookupItem c).isSome := by
  obtain ⟨v, hv⟩ := @lookup_some_of_mem_keys ItemDefinition ITEM_DEFINITIONS c h
  rw [lookupItem, hv]
  rfl

theorem specCollect_range {ratings : List (String × Int)}
    (hrange : ∀ p ∈ ratings, LIKERT_MIN ≤ p.2 ∧ p.2 ≤ LIKERT_MAX) :
    ∀ i ∈ specCollect ratings, (1 : ℚ) ≤ (i.adjusted : ℚ) ∧ (i.adjusted : ℚ) ≤ 5 := by
  intro i hi
  rcases mem_specCollect.mp hi with ⟨p, hp, idef, _, _, rfl⟩
  have hr := hrange p hp
  simp only [LIKERT_MIN, LIKERT_MAX] at hr
  by_cases hrev : idef.reverse_scored
  · simp only [if_pos hrev, LIKERT_MIN, LIKERT_MAX]
    have hb : (1 : Int) ≤ 1 + 5 - p.2 ∧ 1 + 5 - p.2 ≤ 5 := by omega
    exact ⟨by exact_mod_cast hb.1, by exact_mod_cast hb.2⟩
  · simp only [if_neg hrev]
    exact ⟨by exact_mod_cast hr.1, by exact_mod_cast hr.2⟩

theorem specDimItems_map_adjusted (ratings : List (String × Int)) (dim : String) :
    (specDimItems ratings dim).map (fun e => (e.adjusted : ℚ)) =
      (mainCodesOf dim).map (fun c => ((adjustedOf ratings c : Int) : ℚ)) := by
  rw [specDimItems, List.map_map]
  rfl

theorem specDimItems_map_raw (ratings : List (String × Int)) (dim : String) :
    (specDimItems ratings dim).map (fun e => (e.raw : ℚ)) =
      (mainCodesOf dim).map (fun c => ((ratingOf ratings c : Int) : ℚ)) := by
  rw [specDimItems, List.map_map]
  rfl

theorem specDimItems_map_code (ratings : List (String × Int)) (dim : String) :
    (specDimItems ratings dim).map (fun e => e.code) = mainCodesOf dim := by
  rw [specDimItems, List.map_map]
  exact List.map_id _

/-- Dimension aggregation on a complete, in-range, duplicate-free rating set
succeeds and produces, for every dimension, the spec §4.4 fields computed
over the taxonomy-order main-scale items. -/
theorem compute_dimension_scores_ok {ratings : List (String × Int)}
    (hnd : (ratings.map Prod.fst).Nodup)
    (hsup : ∀ c ∈ taxonomyCodes, c ∈ ratings.map Prod.fst)
    (hsub : ∀ c ∈ ratings.map Prod.fst, c ∈ taxonomyCodes)
    (hrange : ∀ p ∈ ratings, LIKERT_MIN ≤ p.2 ∧ p.2 ≤ LIKERT_MAX) :
    ∃ res, compute_dimension_scores ratings = .ok res ∧
      ∀ q ∈ DIMENSION_LABELS, ∃ dr, List.lookup q.1 res = some dr ∧
        dr.label = q.2 ∧
        dr.score = roundTo 1 (likertRescale (meanQ ((mainCodesOf q.1).map
          (fun c => ((adjustedOf ratings c : Int) : ℚ))))) ∧
        dr.raw_mean = roundTo 2 (meanQ ((mainCodesOf q.1).map
          (fun c => ((ratingOf ratings c : Int) : ℚ)))) ∧
        dr.num_items = (mainCodesOf q.1).length ∧
        dr.num_reversed = (mainCodesOf q.1).countP reverseFlag ∧
        dr.items = sortedStrings (mainCodesOf q.1) ∧
        classify_score (likertRescale (meanQ ((mainCodesOf q.1).map
          (fun c => ((adjustedOf ratings c : Int) : ℚ))))) = .ok dr.level := by
  have hknown : ∀ p ∈ ratings, (lookupItem p.1).isSome := fun p hp =>
    lookupItem_isSome_of_mem_tax (hsub p.1 (List.mem_map.mpr ⟨p, hp, rfl⟩))
  have hcol := collectMainItems_eq_spec hknown hrange
  have hcds : compute_dimension_scores ratings =
      scoreDimensions (specCollect ratings) DIMENSION_LABELS := by
    rw [compute_dimension_scores, hcol]
  have hmain_ne : ∀ q ∈ DIMENSION_LABELS, mainCodesOf q.1 ≠ [] := by decide
  have hper : ∀ q ∈ DIMENSION_LABELS,
      ((specCollect ratings).filter (fun e => e.dim == q.1)).Perm
        (specDimItems ratings q.1) := fun q _ => specCollect_filter_perm hnd hsup
  have hone : ∀ q ∈ DIMENSION_LABELS, ∃ dr,
      scoreDimension (specCollect ratings) q.1 q.2 = .ok dr ∧
      dr.label = q.2 ∧
      dr.score = roundTo 1 (likertRescale (meanQ ((mainCodesOf q.1).map
        (fun c => ((adjustedOf ratings c : Int) : ℚ))))) ∧
      dr.raw_mean = roundTo 2 (meanQ ((mainCodesOf q.1).map
        (fun c => ((ratingOf ratings c : Int) : ℚ)))) ∧
      dr.num_items = (mainCodesOf q.1).length ∧
      dr.num_reversed = (mainCodesOf q.1).countP reverseFlag ∧
      dr.items = sortedStrings (mainCodesOf q.1) ∧
      classify_score (likertRescale (meanQ ((mainCodesOf q.1).map
        (fun c => ((adjustedOf ratings c : Int) : ℚ))))) = .ok dr.level := by
    intro q hq
    have hperm := hper q hq
    have hne : (specCollect ratings).filter (fun e => e.dim == q.1) ≠ [] := by
      intro hnil
      have hlen := hperm.length_eq
      rw [hnil] at hlen
      have : (mainCodesOf q.1).length = 0 := by
        have := hlen.symm
        rwa [specDimItems, List.length_map] at this
      exact hmain_ne q hq (List.length_eq_zero.mp this)
    have hrng : ∀ i ∈ (specCollect ratings).filter (fun e => e.dim == q.1),
        (1 : ℚ) ≤ (i.adjusted : ℚ) ∧ (i.adjusted : ℚ) ≤ 5 := fun i hi =>
      specCollect_range hrange i (List.mem_of_mem_filter hi)
    obtain ⟨level, hlevel, hok⟩ := scoreDimension_ok hne hrng
    have hadj : meanQ (((specCollect ratings).filter (fun e => e.dim == q.1)).map
        (fun e => (e.adjusted : ℚ))) =
        meanQ ((mainCodesOf q.1).map (fun c => ((adjustedOf ratings c : Int) : ℚ))) := by
      rw [meanQ_perm (hperm.map (fun e => (e.adjusted : ℚ))), specDimItems_map_adjusted]
    have hraw : meanQ (((specCollect ratings).filter (fun e => e.dim == q.1)).map
        (fun e => (e.raw : ℚ))) =
        meanQ ((mainCodesOf q.1).map (fun c => ((ratingOf ratings c : Int) : ℚ))) := by
      rw [meanQ_perm (hperm.map (fun e => (e.raw : ℚ))), specDimItems_map_raw]
    have hlen : ((specCollect ratings).filter (fun e => e.dim == q.1)).length =
        (mainCodesOf q.1).length := by
      rw [hperm.length_eq, specDimItems, List.length_map]
    have hcount : ((specCollect ratings).filter (fun e => e.dim == q.1)).countP
        (fun e => reverseFlag e.code) = (mainCodesOf q.1).countP reverseFlag := by
      rw [hperm.countP_eq, specDimItems, List.countP_map]
      rfl
    have hitems : sortedStrings (((specCollect ratings).filter
        (fun e => e.dim == q.1)).map (fun e => e.code)) =
        sortedStrings (mainCodesOf q.1) := by
      rw [sortedStrings_perm_eq (hperm.map (fun e => e.code)), specDimItems_map_code]
    rw [hadj] at hok hlevel
    rw [hraw, hlen, hcount, hitems] at hok
    exact ⟨_, hok, rfl, rfl, rfl, rfl, rfl, rfl, hlevel⟩
  have hlabels_nd : (DIMENSION_LABELS.map Prod.fst).Nodup := by decide
  obtain ⟨res, hres, hlook⟩ := scoreDimensions_lookup hlabels_nd
    (fun q hq => (hone q hq).imp (fun dr h => h.1))
  refine ⟨res, by rw [hcds]; exact hres, ?_⟩
  intro q hq
  obtain ⟨dr, hdl, hds⟩ := hlook q hq
  obtain ⟨dr2, hds2, hfields⟩ := hone q hq
  have : dr2 = dr := by
    have := hds2.symm.trans hds
    exact Except.ok.inj this
  rw [this] at hfields
  exact ⟨dr, hdl, hfields⟩

/-- C10: dimension aggregation fails with `EmptyDimension` exactly when some
dimension collects zero items, and for a rating set containing every
taxonomy code (with in-range integer values and no duplicate keys) that
branch is unreachable: the computation returns a result. -/
theorem empty_dimension_unreachable (ratings : List (String × Int))
    (hnd : (ratings.map Prod.fst).Nodup)
    (hsub : ∀ c ∈ ratings.map Prod.fst, c ∈ taxonomyCodes)
    (hrange : ∀ p ∈ ratings, LIKERT_MIN ≤ p.2 ∧ p.2 ≤ LIKERT_MAX) :
    (∀ err, compute_dimension_scores ratings = .error err →
      ∃ q ∈ DIMENSION_LABELS, err = .emptyDimension q.1 ∧
        (specCollect ratings).filter (fun e => e.dim == q.1) = []) ∧
    ((∃ q ∈ DIMENSION_LABELS, (specCollect ratings).filter (fun e => e.dim == q.1) = []) →
      ∃ q ∈ DIMENSION_LABELS,
        compute_dimension_scores ratings = .error (.emptyDimension q.1)) ∧
    ((∀ c ∈ taxonomyCodes, c ∈ ratings.map Prod.fst) →
      ∃ res, compute_dimension_scores ratings = .ok res) := by
  have hknown : ∀ p ∈ ratings, (lookupItem p.1).isSome := fun p hp =>
    lookupItem_isSome_of_mem_tax (hsub p.1 (List.mem_map.mpr ⟨p, hp, rfl⟩))
  have hcds : compute_dimension_scores ratings =
      scoreDimensions (specCollect ratings) DIMENSION_LABELS := by
    rw [compute_dimension_scores, collectMainItems_eq_spec hknown hrange]
  have herr : ∀ err, compute_dimension_scores ratings = .error err →
      ∃ q ∈ DIMENSION_LABELS, err = .emptyDimension q.1 ∧
        (specCollect ratings).filter (fun e => e.dim == q.1) = [] := by
    intro err h
    rw [hcds] at h
    obtain ⟨q, hq, hqerr⟩ := scoreDimensions_error_cases h
    have hrng : ∀ i ∈ (specCollect ratings).filter (fun e => e.dim == q.1),
        (1 : ℚ) ≤ (i.adjusted : ℚ) ∧ (i.adjusted : ℚ) ≤ 5 := fun i hi =>
      specCollect_range hrange i (List.mem_of_mem_filter hi)
    obtain ⟨heq, hempty⟩ := scoreDimension_error_cases hrng hqerr
    exact ⟨q, hq, heq, hempty⟩
  refine ⟨herr, ?_, ?_⟩
  · rintro ⟨q, hq, hempty⟩
    rcases hres : compute_dimension_scores ratings with err | res
    · obtain ⟨q2, hq2, heq, hempty2⟩ := herr err hres
      exact ⟨q2, hq2, by rw [heq]⟩
    · rw [hcds] at hres
      obtain ⟨dr, hdr⟩ := scoreDimensions_ok_component hres q hq
      rw [scoreDimension_empty hempty] at hdr
      exact absurd hdr (by simp)
  · intro hsup
    obtain ⟨res, hres, _⟩ := compute_dimension_scores_ok hnd hsup hsub hrange
    exact ⟨res, hres⟩

/-- C10 witness: the all-3 rating set satisfies the hypotheses and the
aggregation returns a result (no `EmptyDimension`). -/
theorem empty_dimension_unreachable_witness :
    (all3.map Prod.fst).Nodup ∧
    ∃ res, compute_dimension_scores all3 = .ok res := by
  refine ⟨by decide, ?_⟩
  exact (empty_dimension_unreachable all3 (by decide) (by decide)
    (by decide)).2.2 (by decide)

/-- C2: on every complete validated rating set, each dimension result
carries the §4.4 fields: score = round₁ of the rescaled mean of the
(reverse-coded where flagged) main-scale ratings of that dimension,
raw_mean = round₂ of the mean of the original ratings, the count of
reverse-scored items collected, and the sorted contributing codes; and
the all-3 rating set yields every dimension score within [45, 55]. -/
theorem compute_dimension_scores_spec (ratings : List (String × Int))
    (hnd : (ratings.map Prod.fst).Nodup)
    (hsup : ∀ c ∈ taxonomyCodes, c ∈ ratings.map Prod.fst)
    (hsub : ∀ c ∈ ratings.map Prod.fst, c ∈ taxonomyCodes)
    (hrange : ∀ p ∈ ratings, LIKERT_MIN ≤ p.2 ∧ p.2 ≤ LIKERT_MAX) :
    (∃ res, compute_dimension_scores ratings = .ok res ∧
      ∀ q ∈ DIMENSION_LABELS, ∃ dr, List.lookup q.1 res = some dr ∧
        dr.score = roundTo 1 (likertRescale (meanQ ((mainCodesOf q.1).map
          (fun c => ((adjustedOf ratings c : Int) : ℚ))))) ∧
        dr.raw_mean = roundTo 2 (meanQ ((mainCodesOf q.1).map
          (fun c => ((ratingOf ratings c : Int) : ℚ)))) ∧
        dr.num_items = (mainCodesOf q.1).length ∧
        dr.num_reversed = (mainCodesOf q.1).countP reverseFlag ∧
        dr.items = sortedStrings (mainCodesOf q.1)) ∧
    (∀ q ∈ DIMENSION_LABELS, ∃ res3 dr3, compute_dimension_scores all3 = .ok res3 ∧
      List.lookup q.1 res3 = some dr3 ∧ 45 ≤ dr3.score ∧ dr3.score ≤ 55) := by
  constructor
  · obtain ⟨res, hres, hfields⟩ := compute_dimension_scores_ok hnd hsup hsub hrange
    refine ⟨res, hres, ?_⟩
    intro q hq
    obtain ⟨dr, hdl, _, hsc, hrm, hni, hnr, hit, _⟩ := hfields q hq
    exact ⟨dr, hdl, hsc, hrm, hni, hnr, hit⟩
  · obtain ⟨res3, hres3, hfields3⟩ := @compute_dimension_scores_ok all3
      (by decide) (by decide) (by decide) (by decide)
    intro q hq
    obtain ⟨dr, hdl, _, hsc, _, _, _, _, _⟩ := hfields3 q hq
    have hconst : ∀ c ∈ mainCodesOf q.1, adjustedOf all3 c = 3 := by
      have hall : ∀ r ∈ DIMENSION_LABELS, ∀ c ∈ mainCodesOf r.1,
          adjustedOf all3 c = 3 := by decide
      exact hall q hq
    have hm : meanQ ((mainCodesOf q.1).map
        (fun c => ((adjustedOf all3 c : Int) : ℚ))) = 3 := by
      apply meanQ_const
      · have : mainCodesOf q.1 ≠ [] := by
          have hall : ∀ r ∈ DIMENSION_LABELS, mainCodesOf r.1 ≠ [] := by decide
          exact hall q hq
        simpa using this
      · intro x hx
        rcases List.mem_map.mp hx with ⟨c, hc, rfl⟩
        rw [hconst c hc]
        norm_num
    have h50 : ((50 : ℤ) : ℚ) = (50 : ℚ) := by push_cast; ring
    have hscore : dr.score = 50 := by
      rw [hsc, hm]
      have : likertRescale 3 = (50 : ℚ) := by
        rw [likertRescale]
        norm_num
      rw [this, ← h50, roundTo_intCast, h50]
    exact ⟨res3, dr, hres3, hdl, by rw [hscore]; norm_num, by rw [hscore]; norm_num⟩

/-- C2 witness: the all-3 rating set satisfies the hypotheses, and its
attention dimension scores within [45, 55]. -/
theorem compute_dimension_scores_spec_witness :
    (all3.map Prod.fst).Nodup ∧
    ∃ res3 dr3, compute_dimension_scores all3 = .ok res3 ∧
      List.lookup "attention" res3 = some dr3 ∧ 45 ≤ dr3.score ∧ dr3.score ≤ 55 := by
  refine ⟨by decide, ?_⟩
  exact (compute_dimension_scores_spec all3 (by decide) (by decide) (by decide)
    (by decide)).2 ("attention", "Aufmerksamkeitsarchitektur") (by decide)

/-! ## Chronotype and avoidance lemmas -/

theorem lookupAll_isOk {ratings : List (String × Int)} {codes : List String}
    (h : ∀ c ∈ codes, ∃ v, List.lookup c ratings = some v) :
    ∃ vals, lookupAll ratings codes = .ok vals := by
  induction codes with
  | nil => exact ⟨[], rfl⟩
  | cons c t ih =>
    obtain ⟨v, hv⟩ := h c (by simp)
    obtain ⟨vals, hvals⟩ := ih (fun c2 hc2 => h c2 (List.mem_cons_of_mem _ hc2))
    exact ⟨v :: vals, by rw [lookupAll, hv, hvals]⟩

theorem compute_chronotype_index_isOk {ratings : List (String × Int)}
    (h : ∀ c ∈ morning_items ++ evening_items, ∃ v, List.lookup c ratings = some v) :
    ∃ ch, compute_chronotype_index ratings = .ok ch := by
  obtain ⟨mv, hmv⟩ := @lookupAll_isOk ratings morning_items
    (fun c hc => h c (List.mem_append_left _ hc))
  obtain ⟨ev, hev⟩ := @lookupAll_isOk ratings evening_items
    (fun c hc => h c (List.mem_append_right _ hc))
  exact ⟨_, by rw [compute_chronotype_index, hmv, hev]⟩

theorem chronotypeOrInternal_ok {ratings : List (String × Int)} {ch : ChronotypeIndex}
    (h : compute_chronotype_index ratings = .ok ch) :
    chronotypeOrInternal ratings = .ok ch := by
  rw [chronotypeOrInternal, h]

theorem compute_avoidance_none {ratings : List (String × Int)}
    (h : List.lookup "M2" ratings = none ∨ List.lookup "M9" ratings = none) :
    compute_avoidance ratings = .ok none := by
  rcases h with h2 | h9
  · rw [compute_avoidance, h2]
  · rcases h2 : List.lookup "M2" ratings with _ | v2
    · rw [compute_avoidance, h2]
    · rw [compute_avoidance, h2, h9]

theorem compute_avoidance_some {ratings : List (String × Int)} {v2 v9 : Int}
    (h2 : List.lookup "M2" ratings = some v2) (h9 : List.lookup "M9" ratings = some v9)
    (hr2 : LIKERT_MIN ≤ v2 ∧ v2 ≤ LIKERT_MAX) (hr9 : LIKERT_MIN ≤ v9 ∧ v9 ≤ LIKERT_MAX) :
    ∃ level, classify_score (likertRescale (((v2 : ℚ) + v9) / 2)) = .ok level ∧
      compute_avoidance ratings = .ok (some
        { label := "Vermeidungsorientierung (Motivation)"
          score := roundTo 1 (likertRescale (((v2 : ℚ) + v9) / 2))
          level := level
          num_items := 2
          raw_mean := roundTo 2 (((v2 : ℚ) + v9) / 2)
          items := avoid_items }) := by
  simp only [LIKERT_MIN, LIKERT_MAX] at hr2 hr9
  have hq2 : (1 : ℚ) ≤ (v2 : ℚ) ∧ (v2 : ℚ) ≤ 5 :=
    ⟨by exact_mod_cast hr2.1, by exact_mod_cast hr2.2⟩
  have hq9 : (1 : ℚ) ≤ (v9 : ℚ) ∧ (v9 : ℚ) ≤ 5 :=
    ⟨by exact_mod_cast hr9.1, by exact_mod_cast hr9.2⟩
  have hs0 : 0 ≤ likertRescale (((v2 : ℚ) + v9) / 2) := by
    rw [likertRescale]
    nlinarith [hq2.1, hq9.1]
  have hs1 : likertRescale (((v2 : ℚ) + v9) / 2) ≤ 100 := by
    rw [likertRescale]
    nlinarith [hq2.2, hq9.2]
  obtain ⟨level, hlevel⟩ := classify_score_isOk hs0 hs1
  refine ⟨level, hlevel, ?_⟩
  have hmean : ([(v2 : ℚ), (v9 : ℚ)].sum : ℚ) / (([(v2 : ℚ), (v9 : ℚ)].length : ℕ) : ℚ) =
      ((v2 : ℚ) + v9) / 2 := by
    simp
  have hscore : (((v2 : ℚ) + v9) / 2 - (LIKERT_MIN : ℚ)) /
      ((LIKERT_MAX : ℚ) - (LIKERT_MIN : ℚ)) * 100 =
      likertRescale (((v2 : ℚ) + v9) / 2) := by
    rw [likertRescale]
    norm_num [LIKERT_MIN, LIKERT_MAX]
  simp only [compute_avoidance, h2, h9, hmean, hscore, hlevel]
  rfl

theorem compute_additional_indices_parts {ratings : List (String × Int)}
    {av : Option AvoidanceIndex} {ch : ChronotypeIndex}
    (hav : compute_avoidance ratings = .ok av)
    (hch : chronotypeOrInternal ratings = .ok ch) :
    compute_additional_indices ratings = .ok
      { motivation_avoidance := av, chronotype := ch } := by
  rw [compute_additional_indices, hav, hch]

theorem compute_additional_indices_ok_cases {ratings : List (String × Int)}
    {res : AdditionalIndices} (h : compute_additional_indices ratings = .ok res) :
    compute_avoidance ratings = .ok res.motivation_avoidance ∧
    chronotypeOrInternal ratings = .ok res.chronotype := by
  rw [compute_additional_indices] at h
  rcases hav : compute_avoidance ratings with e | av
  · rw [hav] at h
    exact absurd h (by simp)
  · rw [hav] at h
    rcases hch : chronotypeOrInternal ratings with e | ch
    · rw [hch] at h
      exact absurd h (by simp)
    · rw [hch] at h
      have hinj := Except.ok.inj h
      subst hinj
      exact ⟨rfl, rfl⟩

/-- C6: with all six chronotype items present, the index is computed from the
means of the 4 morning and 2 evening ratings, each rescaled as in §4.4,
the balance is the raw-scale difference evening − morning, and the
interpretation bucket follows the −0.8 / −0.4 / 0.4 / 0.8 cutoffs. -/
theorem compute_chronotype_index_spec (ratings : List (String × Int))
    (a8 a13 a14 a15 a9 a16 : Int)
    (h8 : List.lookup "A8" ratings = some a8)
    (h13 : List.lookup "A13" ratings = some a13)
    (h14 : List.lookup "A14" ratings = some a14)
    (h15 : List.lookup "A15" ratings = some a15)
    (h9 : List.lookup "A9" ratings = some a9)
    (h16 : List.lookup "A16" ratings = some a16) :
    ∃ ch, compute_chronotype_index ratings = .ok ch ∧
      ch.label = "Chronotyp-Profil" ∧
      ch.morning_tendency =
        roundTo 1 (likertRescale (((a8 : ℚ) + a13 + a14 + a15) / 4)) ∧
      ch.evening_tendency = roundTo 1 (likertRescale (((a9 : ℚ) + a16) / 2)) ∧
      ch.balance_score =
        roundTo 2 (((a9 : ℚ) + a16) / 2 - ((a8 : ℚ) + a13 + a14 + a15) / 4) ∧
      ch.num_items = 6 ∧
      ch.items = morning_items ++ evening_items ∧
      ch.interpretation =
        (if ((a9 : ℚ) + a16) / 2 - ((a8 : ℚ) + a13 + a14 + a15) / 4 < -4/5 then
          "Deutlicher Morgentyp"
        else if ((a9 : ℚ) + a16) / 2 - ((a8 : ℚ) + a13 + a14 + a15) / 4 < -2/5 then
          "Leichter Morgentyp"
        else if ((a9 : ℚ) + a16) / 2 - ((a8 : ℚ) + a13 + a14 + a15) / 4 < 2/5 then
          "Neutraler/intermediärer Typ"
        else if ((a9 : ℚ) + a16) / 2 - ((a8 : ℚ) + a13 + a14 + a15) / 4 < 4/5 then
          "Leichter Abendtyp"
        else "Deutlicher Abendtyp") := by
  have hmv : lookupAll ratings morning_items = .ok [a8, a13, a14, a15] := by
    rw [show morning_items = ["A8", "A13", "A14", "A15"] from rfl]
    rw [lookupAll, h8, lookupAll, h13, lookupAll, h14, lookupAll, h15, lookupAll]
  have hev : lookupAll ratings evening_items = .ok [a9, a16] := by
    rw [show evening_items = ["A9", "A16"] from rfl]
    rw [lookupAll, h9, lookupAll, h16, lookupAll]
  have hmm : (List.map (fun v : Int => (v : ℚ)) [a8, a13, a14, a15]).sum /
      (([a8, a13, a14, a15].length : ℕ) : ℚ) = ((a8 : ℚ) + a13 + a14 + a15) / 4 := by
    simp
    ring_nf
  have hee : (List.map (fun v : Int => (v : ℚ)) [a9, a16]).sum /
      (([a9, a16].length : ℕ) : ℚ) = ((a9 : ℚ) + a16) / 2 := by
    simp
  have hck : compute_chronotype_index ratings = .ok
      { label := "Chronotyp-Profil"
        morning_tendency := roundTo 1 (likertRescale (((a8 : ℚ) + a13 + a14 + a15) / 4))
        evening_tendency := roundTo 1 (likertRescale (((a9 : ℚ) + a16) / 2))
        balance_score :=
          roundTo 2 (((a9 : ℚ) + a16) / 2 - ((a8 : ℚ) + a13 + a14 + a15) / 4)
        interpretation :=
          (if ((a9 : ℚ) + a16) / 2 - ((a8 : ℚ) + a13 + a14 + a15) / 4 < -4/5 then
            "Deutlicher Morgentyp"
          else if ((a9 : ℚ) + a16) / 2 - ((a8 : ℚ) + a13 + a14 + a15) / 4 < -2/5 then
            "Leichter Morgentyp"
          else if ((a9 : ℚ) + a16) / 2 - ((a8 : ℚ) + a13 + a14 + a15) / 4 < 2/5 then
            "Neutraler/intermediärer Typ"
          else if ((a9 : ℚ) + a16) / 2 - ((a8 : ℚ) + a13 + a14 + a15) / 4 < 4/5 then
            "Leichter Abendtyp"
          else "Deutlicher Abendtyp")
        num_items := morning_items.length + evening_items.length
        items := morning_items ++ evening_items } := by
    rw [compute_chronotype_index, hmv, hev]
    simp only [hmm, hee]
    have hresc : ∀ m : ℚ, (m - (LIKERT_MIN : ℚ)) / ((LIKERT_MAX : ℚ) - (LIKERT_MIN : ℚ)) *
        100 = likertRescale m := by
      intro m
      rw [likertRescale]
      norm_num [LIKERT_MIN, LIKERT_MAX]
    rw [hresc, hresc]
  refine ⟨_, hck, rfl, rfl, rfl, rfl, rfl, rfl, rfl⟩

/-- C6 witness: a rating set with morning items all 2 and evening items all 5
satisfies the hypotheses; the index computes with balance 5 − 2 = 3. -/
theorem compute_chronotype_index_spec_witness :
    List.lookup "A8" chronoSample = some 2 ∧ List.lookup "A9" chronoSample = some 5 ∧
    ∃ ch, compute_chronotype_index chronoSample = .ok ch ∧
      ch.balance_score = roundTo 2 ((((5 : Int) : ℚ) + ((5 : Int) : ℚ)) / 2 -
        (((2 : Int) : ℚ) + ((2 : Int) : ℚ) + ((2 : Int) : ℚ) + ((2 : Int) : ℚ)) / 4) := by
  refine ⟨by decide, by decide, ?_⟩
  obtain ⟨ch, hch, _, _, _, hbal, _, _, _⟩ := compute_chronotype_index_spec chronoSample
    2 2 2 2 5 5 (by decide) (by decide) (by decide) (by decide) (by decide) (by decide)
  exact ⟨ch, hch, hbal⟩

/-- C1 counterexample: on the rating set with all 88 items rated 4 except the
two avoidance items absent, `compute_profile` does *not* succeed — the
up-front validation fails with `IncompleteInput ["M2", "M9"]`, contradicting
"the profile computation succeeds with no error". -/
theorem compute_profile_without_avoidance_fails :
    compute_profile r86 none = .error (.incompleteInput ["M2", "M9"]) := by
  have hmiss : taxonomyCodes.filter
      (fun c => !(((r86.map (fun p => (p.1, PyValue.vint p.2))).map Prod.fst).contains c)) =
      ["M2", "M9"] := by decide
  have hval := @validate_ratings_eq_error_missing
    (r86.map (fun p => (p.1, PyValue.vint p.2))) (by rw [hmiss]; simp)
  rw [hmiss] at hval
  have hsort : sortedStrings ["M2", "M9"] = ["M2", "M9"] := by
    rw [sortedStrings, List.insertionSort, List.insertionSort, List.insertionSort,
      List.orderedInsert, List.orderedInsert,
      if_pos (le_of_lt (String.lt_iff_toList_lt.mpr (by decide)))]
  rw [hsort] at hval
  rw [compute_profile, hval]

/-- C1 (amended): the avoidance index is included in `additional_indices`
iff both items are present (mean of the two ratings rescaled to 0–100 and
level classified as §4.4); when one is absent,
`compute_additional_indices` — not the full profile computation, which
fails validation — succeeds with no error, omits `motivation_avoidance`
and still includes `chronotype`; in particular it does so for the 86-item
all-4 rating set. -/
theorem compute_additional_indices_avoidance_spec (ratings : List (String × Int)) :
    (∀ v2 v9, List.lookup "M2" ratings = some v2 → List.lookup "M9" ratings = some v9 →
      LIKERT_MIN ≤ v2 ∧ v2 ≤ LIKERT_MAX → LIKERT_MIN ≤ v9 ∧ v9 ≤ LIKERT_MAX →
      ∀ res, compute_additional_indices ratings = .ok res →
        ∃ level, classify_score (likertRescale (((v2 : ℚ) + v9) / 2)) = .ok level ∧
          res.motivation_avoidance = some
            { label := "Vermeidungsorientierung (Motivation)"
              score := roundTo 1 (likertRescale (((v2 : ℚ) + v9) / 2))
              level := level
              num_items := 2
              raw_mean := roundTo 2 (((v2 : ℚ) + v9) / 2)
              items := avoid_items }) ∧
    ((List.lookup "M2" ratings = none ∨ List.lookup "M9" ratings = none) →
      (∀ res, compute_additional_indices ratings = .ok res →
        res.motivation_avoidance = none) ∧
      ((∀ c ∈ morning_items ++ evening_items, ∃ v, List.lookup c ratings = some v) →
        ∃ res, compute_additional_indices ratings = .ok res ∧
          res.motivation_avoidance = none)) ∧
    (∃ res, compute_additional_indices r86 = .ok res ∧ res.motivation_avoidance = none ∧
      res.chronotype.label = "Chronotyp-Profil") := by
  refine ⟨?_, ?_, ?_⟩
  · intro v2 v9 h2 h9 hr2 hr9 res hres
    obtain ⟨level, hlevel, hav⟩ := compute_avoidance_some h2 h9 hr2 hr9
    have hparts := compute_additional_indices_ok_cases hres
    exact ⟨level, hlevel, (Except.ok.inj (hav.symm.trans hparts.1)).symm⟩
  · intro hor
    have hav := compute_avoidance_none hor
    constructor
    · intro res hres
      have hparts := compute_additional_indices_ok_cases hres
      exact (Except.ok.inj (hav.symm.trans hparts.1)).symm
    · intro hall
      obtain ⟨ch, hch⟩ := compute_chronotype_index_isOk hall
      exact ⟨_, compute_additional_indices_parts hav (chronotypeOrInternal_ok hch), rfl⟩
  · have hav : compute_avoidance r86 = .ok none := compute_avoidance_none (Or.inl (by decide))
    have hall : ∀ c ∈ morning_items ++ evening_items, ∃ v, List.lookup c r86 = some v := by
      intro c hc
      fin_cases hc <;> exact ⟨4, by decide⟩
    obtain ⟨ch, hch⟩ := compute_chronotype_index_isOk hall
    exact ⟨_, compute_additional_indices_parts hav (chronotypeOrInternal_ok hch), rfl,
      by
        obtain ⟨mv, hmv⟩ := @lookupAll_isOk r86 morning_items
          (fun c hcm => hall c (List.mem_append_left _ hcm))
        obtain ⟨ev, hev⟩ := @lookupAll_isOk r86 evening_items
          (fun c hce => hall c (List.mem_append_right _ hce))
        rw [compute_chronotype_index, hmv, hev] at hch
        rw [← Except.ok.inj hch]⟩

/-- C1 witness: on the 86-item all-4 set, `M2` is absent and the
additional-indices computation succeeds, omitting the avoidance index. -/
theorem compute_additional_indices_avoidance_spec_witness :
    List.lookup "M2" r86 = none ∧
    ∃ res, compute_additional_indices r86 = .ok res ∧
      res.motivation_avoidance = none := by
  refine ⟨by decide, ?_⟩
  obtain ⟨res, hres, hma, _⟩ := (compute_additional_indices_avoidance_spec r86).2.2
  exact ⟨res, hres, hma⟩

/-! ## Profile assembly lemmas -/

theorem filter_not_contains_eq_nil {base keys : List String} :
    base.filter (fun c => !(keys.contains c)) = [] ↔ ∀ c ∈ base, c ∈ keys := by
  rw [List.filter_eq_nil_iff]
  constructor
  · intro h c hc
    simpa using h c hc
  · intro h c hc
    simpa using h c hc

theorem validate_int_ok {ratings : List (String × Int)}
    (hsup : ∀ c ∈ taxonomyCodes, c ∈ ratings.map Prod.fst)
    (hsub : ∀ c ∈ ratings.map Prod.fst, c ∈ taxonomyCodes)
    (hrange : ∀ p ∈ ratings, LIKERT_MIN ≤ p.2 ∧ p.2 ≤ LIKERT_MAX) :
    validate_ratings (ratings.map (fun p => (p.1, PyValue.vint p.2))) = .ok () := by
  have hkeys : (ratings.map (fun p => (p.1, PyValue.vint p.2))).map Prod.fst =
      ratings.map Prod.fst := by
    rw [List.map_map]
    rfl
  have hmiss : taxonomyCodes.filter (fun c =>
      !(((ratings.map (fun p => (p.1, PyValue.vint p.2))).map Prod.fst).contains c)) = [] := by
    rw [hkeys]
    exact filter_not_contains_eq_nil.mpr hsup
  have hext : ((ratings.map (fun p => (p.1, PyValue.vint p.2))).map Prod.fst).filter
      (fun c => !(taxonomyCodes.contains c)) = [] := by
    rw [hkeys]
    exact filter_not_contains_eq_nil.mpr hsub
  rw [validate_ratings_eq_checkEntries hmiss hext]
  apply (checkEntries_ok_iff _).mpr
  intro p hp
  rcases List.mem_map.mp hp with ⟨q, hq, rfl⟩
  exact ⟨q.2, rfl, (hrange q hq).1, (hrange q hq).2⟩

/-- Profile assembly on a complete validated rating set: validation passes,
every stage runs, and the response-quality block is attached unaltered
(it never blocks or changes the rest of the profile). -/
theorem compute_profile_ok {ratings : List (String × Int)} (pid : Option String)
    (hnd : (ratings.map Prod.fst).Nodup)
    (hsup : ∀ c ∈ taxonomyCodes, c ∈ ratings.map Prod.fst)
    (hsub : ∀ c ∈ ratings.map Prod.fst, c ∈ taxonomyCodes)
    (hrange : ∀ p ∈ ratings, LIKERT_MIN ≤ p.2 ∧ p.2 ≤ LIKERT_MAX) :
    ∃ p dims add, compute_profile ratings pid = .ok p ∧
      compute_dimension_scores ratings = .ok dims ∧
      compute_additional_indices ratings = .ok add ∧
      p.id = pid ∧ p.dimensions = dims ∧ p.additional_indices = add ∧
      p.response_quality = check_response_quality ratings := by
  have hval := validate_int_ok hsup hsub hrange
  obtain ⟨dims, hdims, _⟩ := compute_dimension_scores_ok hnd hsup hsub hrange
  obtain ⟨v2, h2⟩ := lookup_some_of_mem_keys (hsup "M2" (by decide))
  obtain ⟨v9, h9⟩ := lookup_some_of_mem_keys (hsup "M9" (by decide))
  obtain ⟨level, _, hav⟩ := compute_avoidance_some h2 h9
    (hrange _ (mem_of_lookup_some h2)) (hrange _ (mem_of_lookup_some h9))
  have hall : ∀ c ∈ morning_items ++ evening_items, ∃ v, List.lookup c ratings = some v := by
    intro c hc
    have hctax : c ∈ taxonomyCodes := by fin_cases hc <;> decide
    exact lookup_some_of_mem_keys (hsup c hctax)
  obtain ⟨ch, hch⟩ := compute_chronotype_index_isOk hall
  obtain ⟨add, hadd⟩ : ∃ add, compute_additional_indices ratings = .ok add :=
    ⟨_, compute_additional_indices_parts hav (chronotypeOrInternal_ok hch)⟩
  have hprof : compute_profile ratings pid = .ok
      { id := pid
        dimensions := dims
        additional_indices := add
        response_quality := check_response_quality ratings
        meta := { version := VERSION
                  num_items_instrument := ITEM_DEFINITIONS.length
                  num_items_answered := ratings.length
                  num_items_main_scales := (dims.map (fun p => p.2.num_items)).sum
                  num_items_additional := INDEX_ITEMS_DEFINED.length
                  num_reversed_total := (dims.map (fun p => p.2.num_reversed)).sum
                  likert_min := LIKERT_MIN
                  likert_max := LIKERT_MAX
                  score_min := 0
                  score_max := 100 } } := by
    rw [compute_profile, hval, hdims, hadd]
  exact ⟨_, dims, _, hprof, hdims, hadd, rfl, rfl, rfl, rfl⟩

/-! ## Response-quality lemmas -/

/-- The values of a rating set, and the engine's mean/variance expressions,
as stated by the source. -/
theorem crq_num_unique (ratings : List (String × Int)) :
    (check_response_quality ratings).num_unique_responses =
      (ratings.map Prod.snd).dedup.length := rfl

theorem crq_variance_def (ratings : List (String × Int)) :
    (check_response_quality ratings).response_variance = roundTo 2
      (((ratings.map Prod.snd).map (fun v : Int => ((v : ℚ) -
          ((ratings.map Prod.snd).map (fun v : Int => (v : ℚ))).sum /
            ((ratings.map Prod.snd).length : ℚ)) ^ 2)).sum /
        ((ratings.map Prod.snd).length : ℚ)) := rfl

theorem crq_flag_def (ratings : List (String × Int)) :
    (check_response_quality ratings).quality_flag =
      (if ((if (ratings.map Prod.snd).dedup.length ≤ 2 then [QUALITY_WARN_STRAIGHT] else []) ++
          (if ((ratings.map Prod.snd).map (fun v : Int => ((v : ℚ) -
              ((ratings.map Prod.snd).map (fun v : Int => (v : ℚ))).sum /
                ((ratings.map Prod.snd).length : ℚ)) ^ 2)).sum /
              ((ratings.map Prod.snd).length : ℚ) < 1/2
            then [QUALITY_WARN_LOW_VAR] else [])).isEmpty
        then "ok" else "check") := rfl

theorem crq_warnings_def (ratings : List (String × Int)) :
    (check_response_quality ratings).warnings =
      (if ((if (ratings.map Prod.snd).dedup.length ≤ 2 then [QUALITY_WARN_STRAIGHT] else []) ++
          (if ((ratings.map Prod.snd).map (fun v : Int => ((v : ℚ) -
              ((ratings.map Prod.snd).map (fun v : Int => (v : ℚ))).sum /
                ((ratings.map Prod.snd).length : ℚ)) ^ 2)).sum /
              ((ratings.map Prod.snd).length : ℚ) < 1/2
            then [QUALITY_WARN_LOW_VAR] else [])).isEmpty
        then none else some
          ((if (ratings.map Prod.snd).dedup.length ≤ 2 then [QUALITY_WARN_STRAIGHT] else []) ++
          (if ((ratings.map Prod.snd).map (fun v : Int => ((v : ℚ) -
              ((ratings.map Prod.snd).map (fun v : Int => (v : ℚ))).sum /
                ((ratings.map Prod.snd).length : ℚ)) ^ 2)).sum /
              ((ratings.map Prod.snd).length : ℚ) < 1/2
            then [QUALITY_WARN_LOW_VAR] else []))) := rfl

/-- On the all-2 set: one distinct value, zero variance, both warnings. -/
theorem check_response_quality_all2_fields :
    (check_response_quality all2).num_unique_responses = 1 ∧
    (check_response_quality all2).quality_flag = "check" ∧
    (check_response_quality all2).warnings =
      some [QUALITY_WARN_STRAIGHT, QUALITY_WARN_LOW_VAR] := by
  have hvals : all2.map Prod.snd = List.replicate 88 2 := by decide
  have hu : (all2.map Prod.snd).dedup.length = 1 := by decide
  have hvar : ((all2.map Prod.snd).map (fun v : Int => ((v : ℚ) -
      ((all2.map Prod.snd).map (fun v : Int => (v : ℚ))).sum /
        ((all2.map Prod.snd).length : ℚ)) ^ 2)).sum /
      ((all2.map Prod.snd).length : ℚ) = 0 := by
    rw [hvals]
    simp only [List.map_replicate, List.sum_replicate, List.length_replicate,
      nsmul_eq_mul]
    norm_num
  refine ⟨by rw [crq_num_unique, hu], ?_, ?_⟩
  · rw [crq_flag_def, hvar, hu]
    norm_num
  · rw [crq_warnings_def, hvar, hu]
    norm_num [QUALITY_WARN_STRAIGHT, QUALITY_WARN_LOW_VAR]

/-- A spread-out rating set: 32 ones, 24 threes, 32 fives, zipped onto the
taxonomy codes. -/
def okValues : List Int :=
  List.replicate 32 1 ++ List.replicate 24 3 ++ List.replicate 32 5

def rOK : List (String × Int) := taxonomyCodes.zip okValues

/-- On `rOK`: three distinct values and variance 32/11 ≥ 0.5, so the flag is
"ok" and the warnings value is `none` (Python `None`). -/
theorem check_response_quality_rOK_fields :
    (check_response_quality rOK).quality_flag = "ok" ∧
    (check_response_quality rOK).warnings = none := by
  have hvals : rOK.map Prod.snd = okValues := by decide
  have hu : ¬((rOK.map Prod.snd).dedup.length ≤ 2) := by decide
  have hvar : ((rOK.map Prod.snd).map (fun v : Int => ((v : ℚ) -
      ((rOK.map Prod.snd).map (fun v : Int => (v : ℚ))).sum /
        ((rOK.map Prod.snd).length : ℚ)) ^ 2)).sum /
      ((rOK.map Prod.snd).length : ℚ) = 32/11 := by
    rw [hvals, okValues]
    simp only [List.map_append, List.map_replicate, List.sum_append,
      List.sum_replicate, List.length_append, List.length_replicate, nsmul_eq_mul]
    norm_num
  constructor
  · rw [crq_flag_def, hvar, if_neg hu]
    norm_num
  · rw [crq_warnings_def, hvar, if_neg hu]
    norm_num

/-- C7: response quality is computed over all raw ratings — distinct-value
count, population variance (divisor n), flag "check" exactly when the
distinct count is ≤ 2 or the variance is < 0.5 — and it never blocks or
alters the profile computation; 88 identical ratings of 2 give flag
"check", one unique response, and both warnings. -/
theorem check_response_quality_spec (ratings : List (String × Int)) :
    (check_response_quality ratings).num_unique_responses =
      (ratings.map Prod.snd).dedup.length ∧
    (check_response_quality ratings).response_variance = roundTo 2
      (meanQ ((ratings.map Prod.snd).map (fun v : Int =>
        ((v : ℚ) - meanQ ((ratings.map Prod.snd).map (fun v : Int => (v : ℚ)))) ^ 2))) ∧
    ((check_response_quality ratings).quality_flag = "check" ↔
      (ratings.map Prod.snd).dedup.length ≤ 2 ∨
      meanQ ((ratings.map Prod.snd).map (fun v : Int =>
        ((v : ℚ) - meanQ ((ratings.map Prod.snd).map (fun v : Int => (v : ℚ)))) ^ 2)) <
        1/2) ∧
    ((ratings.map Prod.fst).Nodup → (∀ c ∈ taxonomyCodes, c ∈ ratings.map Prod.fst) →
      (∀ c ∈ ratings.map Prod.fst, c ∈ taxonomyCodes) →
      (∀ p ∈ ratings, LIKERT_MIN ≤ p.2 ∧ p.2 ≤ LIKERT_MAX) →
      ∀ pid, ∃ p, compute_profile ratings pid = .ok p ∧
        p.response_quality = check_response_quality ratings) ∧
    ((check_response_quality all2).quality_flag = "check" ∧
     (check_response_quality all2).num_unique_responses = 1 ∧
     (check_response_quality all2).warnings =
       some [QUALITY_WARN_STRAIGHT, QUALITY_WARN_LOW_VAR]) := by
  have hMQ : meanQ ((ratings.map Prod.snd).map (fun v : Int => (v : ℚ))) =
      ((ratings.map Prod.snd).map (fun v : Int => (v : ℚ))).sum /
        ((ratings.map Prod.snd).length : ℚ) := by
    rw [meanQ, List.length_map]
  have hVQ : meanQ ((ratings.map Prod.snd).map (fun v : Int =>
      ((v : ℚ) - meanQ ((ratings.map Prod.snd).map (fun v : Int => (v : ℚ)))) ^ 2)) =
      ((ratings.map Prod.snd).map (fun v : Int => ((v : ℚ) -
          ((ratings.map Prod.snd).map (fun v : Int => (v : ℚ))).sum /
            ((ratings.map Prod.snd).length : ℚ)) ^ 2)).sum /
        ((ratings.map Prod.snd).length : ℚ) := by
    rw [meanQ, List.length_map, hMQ]
  refine ⟨crq_num_unique ratings, ?_, ?_, ?_, ?_⟩
  · rw [crq_variance_def, hVQ]
  · rw [crq_flag_def, hVQ]
    by_cases h1 : (ratings.map Prod.snd).dedup.length ≤ 2
    · simp [h1]
    · by_cases h2 : ((ratings.map Prod.snd).map (fun v : Int => ((v : ℚ) -
          ((ratings.map Prod.snd).map (fun v : Int => (v : ℚ))).sum /
            ((ratings.map Prod.snd).length : ℚ)) ^ 2)).sum /
          ((ratings.map Prod.snd).length : ℚ) < 1/2
      · simp [h1, h2]
      · simp [h1, h2]
  · intro hnd hsup hsub hrange pid
    obtain ⟨p, _, _, hp, _, _, _, _, _, hq⟩ := compute_profile_ok pid hnd hsup hsub hrange
    exact ⟨p, hp, hq⟩
  · exact ⟨check_response_quality_all2_fields.2.1, check_response_quality_all2_fields.1,
      check_response_quality_all2_fields.2.2⟩

/-- C7 witness: on the all-3 set the validation hypotheses hold, the profile
computes, and the quality block is attached unchanged. -/
theorem check_response_quality_spec_witness :
    (all3.map Prod.fst).Nodup ∧
    ∃ p, compute_profile all3 (some "w") = .ok p ∧
      p.response_quality = check_response_quality all3 := by
  refine ⟨by decide, ?_⟩
  exact (check_response_quality_spec all3).2.2.2.1 (by decide) (by decide) (by decide)
    (by decide) (some "w")

/-- C8 counterexample: on the spread-out rating set `rOK` the quality flag is
"ok", yet the result dict still carries the `"warnings"` key — bound to the
`None` value — rather than omitting the entry, contradicting "the result
carries no warnings entry". -/
theorem response_quality_warnings_not_absent :
    (check_response_quality rOK).quality_flag = "ok" ∧
    (check_response_quality rOK).warnings = none ∧
    "warnings" ∈ response_quality_keys :=
  ⟨check_response_quality_rOK_fields.1, check_response_quality_rOK_fields.2, by decide⟩

/-- C8 (amended): the `warnings` key is always present in the result dict;
its value is the list of applicable warning strings exactly when the
quality check flags, and the `None` value (not an absent entry) when the
flag is "ok". -/
theorem response_quality_warnings_spec (ratings : List (String × Int)) :
    "warnings" ∈ response_quality_keys ∧
    ((check_response_quality ratings).warnings = none ↔
      (check_response_quality ratings).quality_flag = "ok") ∧
    (∀ w, (check_response_quality ratings).warnings = some w →
      (check_response_quality ratings).quality_flag = "check" ∧ w ≠ [] ∧
      w = (if (ratings.map Prod.snd).dedup.length ≤ 2
            then [QUALITY_WARN_STRAIGHT] else []) ++
          (if ((ratings.map Prod.snd).map (fun v : Int => ((v : ℚ) -
              ((ratings.map Prod.snd).map (fun v : Int => (v : ℚ))).sum /
                ((ratings.map Prod.snd).length : ℚ)) ^ 2)).sum /
              ((ratings.map Prod.snd).length : ℚ) < 1/2
            then [QUALITY_WARN_LOW_VAR] else [])) := by
  refine ⟨by decide, ?_, ?_⟩
  · rw [crq_warnings_def, crq_flag_def]
    by_cases hgl : ((if (ratings.map Prod.snd).dedup.length ≤ 2
        then [QUALITY_WARN_STRAIGHT] else []) ++
        (if ((ratings.map Prod.snd).map (fun v : Int => ((v : ℚ) -
            ((ratings.map Prod.snd).map (fun v : Int => (v : ℚ))).sum /
              ((ratings.map Prod.snd).length : ℚ)) ^ 2)).sum /
            ((ratings.map Prod.snd).length : ℚ) < 1/2
          then [QUALITY_WARN_LOW_VAR] else [])).isEmpty
    · rw [if_pos hgl, if_pos hgl]
      simp
    · rw [if_neg hgl, if_neg hgl]
      simp
  · intro w hw
    rw [crq_warnings_def] at hw
    rw [crq_flag_def]
    by_cases hgl : ((if (ratings.map Prod.snd).dedup.length ≤ 2
        then [QUALITY_WARN_STRAIGHT] else []) ++
        (if ((ratings.map Prod.snd).map (fun v : Int => ((v : ℚ) -
            ((ratings.map Prod.snd).map (fun v : Int => (v : ℚ))).sum /
              ((ratings.map Prod.snd).length : ℚ)) ^ 2)).sum /
            ((ratings.map Prod.snd).length : ℚ) < 1/2
          then [QUALITY_WARN_LOW_VAR] else [])).isEmpty
    · rw [if_pos hgl] at hw
      exact absurd hw (by simp)
    · rw [if_neg hgl] at hw
      refine ⟨by rw [if_neg hgl], ?_, (Option.some.inj hw).symm⟩
      intro hwnil
      rw [← Option.some.inj hw] at hwnil
      rw [hwnil] at hgl
      exact hgl rfl

/-- C8 witness: on the all-2 set the warnings value is the two applicable
warning strings and the flag is "check". -/
theorem response_quality_warnings_spec_witness :
    (check_response_quality all2).warnings =
      some [QUALITY_WARN_STRAIGHT, QUALITY_WARN_LOW_VAR] ∧
    (check_response_quality all2).quality_flag = "check" := by
  have hw := check_response_quality_all2_fields.2.2
  exact ⟨hw, ((response_quality_warnings_spec all2).2.2 _ hw).1⟩

end Lernprofil
